import Mathlib

/-!
Shallow embedding of the polai Cedar-style policy engine (github.com/iann0036/polai):
the token model (token.go), the parser (parser.go), the entity store
(entitystore.go) and the expression evaluator / decision procedure
(evaluator.go, the current revision of which appears in the source drop as
src/unnamed/part_002 lines 1-2112).

Modelling conventions:
* Go machine integers (int64) are modelled as `Int`, with two's-complement
  wraparound (`wrap64`) applied exactly where the Go code performs `+`, `-`, `*`
  on `int64` operands.
* Fallible Go functions returning `(T, error)` are modelled with `Except String`
  (the `String` is `err.Error()`); code paths that panic at run time (nil-map
  assignment, out-of-range slice indexing, nil-pointer dereference) are
  modelled by the dedicated `EvalRes.panic` constructor.
* Calls into the Go standard library / third-party libraries that are outside
  this repository (`net.ParseCIDR`, `net.IP.String`, `json.Marshal`/`Unmarshal`,
  `strconv.ParseFloat`/`FormatFloat`, `match.MatchLimit`) are threaded through
  an explicit record of externals (`Ext`); every theorem quantifies over the
  externals, and witnesses instantiate them with a simple concrete record.
  `strconv.ParseInt`/`FormatInt` (base 10, 64 bit) are implemented concretely.
* The entity store is modelled in its parsed form (`List Entity`); reading and
  JSON-decoding the raw store bytes is out of scope (spec section 1), so
  `GetEntities` always succeeds in the model.
-/

namespace Polai

/-- Lexical token tags, following the `Token` constant block of token.go.
The evaluator revision embedded here additionally references `COLON`,
`RECORDKEY` and the four `THEN_*_ELSE_ERROR` / `THEN_ERROR_ELSE_*` composite
tags, which a newer token.go defines; they are included here.  token.go's
`LONG` is the numeric-literal token produced by the scanner (parser.go's
condition-clause scan labels its numeric case `INT`; both name the same
numeric-literal tag in the revisions embedded here). -/
inductive Token where
  | ILLEGAL | EOF | WHITESPC | ERROR
  | IDENT | LONG | DBLQUOTESTR | COMMENT
  | ENTITY | ATTRIBUTE | SET | RECORD | FUNCTION
  | ELSE_TRUE | ELSE_FALSE
  | THEN_TRUE_ELSE_TRUE | THEN_TRUE_ELSE_FALSE
  | THEN_FALSE_ELSE_TRUE | THEN_FALSE_ELSE_FALSE
  | THEN_TRUE_ELSE_ERROR | THEN_FALSE_ELSE_ERROR
  | THEN_ERROR_ELSE_TRUE | THEN_ERROR_ELSE_FALSE
  | IP | DECIMAL
  | LEFT_PAREN | RIGHT_PAREN | LEFT_SQB | RIGHT_SQB
  | LEFT_BRACE | RIGHT_BRACE | PERIOD | COMMA | SEMICOLON
  | EXCLAMATION | LT | GT | DASH | PLUS | MULTIPLIER
  | NAMESPACE | EQUALITY | INEQUALITY | LTE | GTE | AND | OR
  | COLON | RECORDKEY
  | PERMIT | FORBID | WHEN | UNLESS | TRUE | FALSE
  | IF | THEN | ELSE | IN | LIKE | HAS
  | PRINCIPAL | ACTION | RESOURCE | CONTEXT
  deriving DecidableEq, Repr

/-- The integer value of a token tag (Go's `Token` is an `int` enumeration and
error messages interpolate it with `%v`).  The numbering follows token.go's
iota order; the tags that the embedded evaluator revision uses but the older
token.go in the drop does not yet define are numbered by their position in
the inductive above.  No claim below depends on these numerals. -/
def Token.goIndex : Token → Nat
  | .ILLEGAL => 0 | .EOF => 1 | .WHITESPC => 2 | .ERROR => 3
  | .IDENT => 4 | .LONG => 5 | .DBLQUOTESTR => 6 | .COMMENT => 7
  | .ENTITY => 8 | .ATTRIBUTE => 9 | .SET => 10 | .RECORD => 11 | .FUNCTION => 12
  | .ELSE_TRUE => 13 | .ELSE_FALSE => 14
  | .THEN_TRUE_ELSE_TRUE => 15 | .THEN_TRUE_ELSE_FALSE => 16
  | .THEN_FALSE_ELSE_TRUE => 17 | .THEN_FALSE_ELSE_FALSE => 18
  | .THEN_TRUE_ELSE_ERROR => 19 | .THEN_FALSE_ELSE_ERROR => 20
  | .THEN_ERROR_ELSE_TRUE => 21 | .THEN_ERROR_ELSE_FALSE => 22
  | .IP => 23 | .DECIMAL => 24
  | .LEFT_PAREN => 25 | .RIGHT_PAREN => 26 | .LEFT_SQB => 27 | .RIGHT_SQB => 28
  | .LEFT_BRACE => 29 | .RIGHT_BRACE => 30 | .PERIOD => 31 | .COMMA => 32
  | .SEMICOLON => 33 | .EXCLAMATION => 34 | .LT => 35 | .GT => 36
  | .DASH => 37 | .PLUS => 38 | .MULTIPLIER => 39
  | .NAMESPACE => 40 | .EQUALITY => 41 | .INEQUALITY => 42 | .LTE => 43
  | .GTE => 44 | .AND => 45 | .OR => 46
  | .COLON => 47 | .RECORDKEY => 48
  | .PERMIT => 49 | .FORBID => 50 | .WHEN => 51 | .UNLESS => 52
  | .TRUE => 53 | .FALSE => 54
  | .IF => 55 | .THEN => 56 | .ELSE => 57 | .IN => 58 | .LIKE => 59 | .HAS => 60
  | .PRINCIPAL => 61 | .ACTION => 62 | .RESOURCE => 63 | .CONTEXT => 64

/-- Rendering of a token with Go's `%v` verb (its decimal value). -/
def Token.goV (t : Token) : String := toString t.goIndex

/-- A single item of a condition-clause token sequence (parser.go
`SequenceItem`).  The Go struct of the embedded evaluator revision also has a
`RecordKeyValuePairs map[string]SequenceItem` field; that map is only ever
created nil (`SequenceItem{Token: RECORD}`) and the single assignment into it
panics before any non-nil value can exist (see `reduceStep`, RIGHT_BRACE
case), so no live item ever carries entries and the field is omitted here. -/
structure SequenceItem where
  token : Token
  literal : String
  normalized : String
  deriving DecidableEq, Repr

/-- Outcome of running a piece of Go code: normal result, error return
(`err.Error()` as the payload), or a run-time panic. -/
inductive EvalRes (α : Type) where
  | ok : α → EvalRes α
  | fail : String → EvalRes α
  | panic : EvalRes α
  deriving DecidableEq, Repr

def EvalRes.bind {α β : Type} : EvalRes α → (α → EvalRes β) → EvalRes β
  | .ok a, f => f a
  | .fail e, _ => .fail e
  | .panic, _ => .panic

instance : Monad EvalRes where
  pure := EvalRes.ok
  bind := EvalRes.bind

/-- `strings.Contains s sub` (Go standard library): some suffix of `s`
starts with `sub`. -/
def goContains (s sub : String) : Bool :=
  (List.range (s.data.length + 1)).any (fun i => sub.data.isPrefixOf (s.data.drop i))

/-- `strings.HasPrefix s sub` (Go standard library). -/
def goStartsWith (s sub : String) : Bool := sub.data.isPrefixOf s.data

/-- `strings.Count s c` for a one-character needle `c`. -/
def goCountChar (s : String) (c : Char) : Nat := s.data.count c

/-- `strings.IndexByte s b`: index of the first occurrence, or none (-1). -/
def goIndexOf (s : String) (c : Char) : Option Nat := s.data.indexOf? c

/-- `strings.Join parts ". "` as used by `bubbleErrors`. -/
def goJoinDotSpace : List String → String
  | [] => ""
  | [x] => x
  | x :: xs => x ++ ". " ++ goJoinDotSpace xs

/-- Two's-complement wraparound of Go `int64` arithmetic. -/
def wrap64 (x : Int) : Int := (x + 2 ^ 63) % 2 ^ 64 - 2 ^ 63

/-- Go's `%q` rendering of a string (used only inside error literals that no
claim depends on): double quotes with `\` and `"` escaped. -/
def goQuote (s : String) : String :=
  "\"" ++ String.mk (s.data.flatMap fun c =>
    if c = '"' ∨ c = '\\' then ['\\', c] else [c]) ++ "\""

/-- `strconv.FormatInt v 10`: decimal rendering of an int64 value. -/
def formatInt (v : Int) : String := toString v

/-- `strconv.ParseInt s 10 64`: optional sign, decimal digits, 64-bit range
check.  `none` models a non-nil error return. -/
def parseInt64 (s : String) : Option Int :=
  let (neg, ds) :=
    match s.data with
    | '-' :: rest => (true, rest)
    | '+' :: rest => (false, rest)
    | l => (false, l)
  if ds.isEmpty then none
  else if ds.all (fun c => '0' ≤ c ∧ c ≤ '9') then
    let n : Nat := ds.foldl (fun acc c => acc * 10 + (c.toNat - 48)) 0
    let v : Int := if neg then -(n : Int) else (n : Int)
    if -(2 ^ 63) ≤ v ∧ v ≤ 2 ^ 63 - 1 then some v else none
  else none

/-- The error text of a failed `strconv.ParseInt` call (the distinction
between syntax and range failures is irrelevant to every claim; the syntax
message is used). -/
def parseIntErr (s : String) : String :=
  "strconv.ParseInt: parsing " ++ goQuote s ++ ": invalid syntax"

/-- A JSON value as decoded by `encoding/json` into `interface{}`
(numbers arrive as `float64`, here modelled as `Rat`). -/
inductive JsonVal where
  | str : String → JsonVal
  | num : Rat → JsonVal
  | bool : Bool → JsonVal
  | obj : List (String × JsonVal) → JsonVal
  | arr : List JsonVal → JsonVal
  | null

/-- A `net.IPNet` as returned by `net.ParseCIDR`: address bytes and mask
bytes (always of equal length for real `ParseCIDR` results). -/
structure IPNet where
  ip : List Nat
  mask : List Nat
  deriving DecidableEq, Repr

/-- First address of a CIDR block: `ip[i] &= mask[i]` byte-wise. -/
def IPNet.firstIP (n : IPNet) : List Nat :=
  List.zipWith (fun a m => Nat.land a m) n.ip n.mask

/-- Last address of a CIDR block: the first address with `|= ^mask[i]`
byte-wise (`^m` on a Go byte is `255 - m`). -/
def IPNet.lastIP (n : IPNet) : List Nat :=
  List.zipWith (fun a m => Nat.lor a (255 - m % 256)) n.firstIP n.mask

/-- External (out-of-repository) functions that the evaluator calls: the Go
standard library's `net`, `encoding/json` and `strconv` float routines and
the `match-wildcard` library.  Spec section 1 places these collaborators out
of scope; every theorem below holds for all instantiations. -/
structure Ext where
  /-- `net.ParseCIDR` (`none` models a non-nil error). -/
  parseCIDR : String → Option IPNet
  /-- `(*net.IPNet).String()`, used to normalize `ip(...)` values. -/
  ipNetString : IPNet → String
  /-- `net.IP.String()`. -/
  ipString : List Nat → String
  /-- `(*net.IPNet).Contains`. -/
  ipNetContains : IPNet → List Nat → Bool
  /-- `net.IP.IsLoopback`. -/
  ipIsLoopback : List Nat → Bool
  /-- `net.IP.IsMulticast`. -/
  ipIsMulticast : List Nat → Bool
  /-- `strconv.ParseFloat s 64` (`none` models an error). -/
  parseFloat : String → Option Rat
  /-- `strconv.FormatFloat f 'f' 4 64`. -/
  formatFloat4 : Rat → String
  /-- `json.Marshal` of a Go string (always succeeds). -/
  marshalString : String → String
  /-- `json.Marshal` of a `[]string`. -/
  marshalStringList : List String → Except String String
  /-- `json.Marshal` of a decoded JSON value (record / set attribute blobs). -/
  jsonMarshal : JsonVal → Except String String
  /-- `json.Unmarshal` into `[]interface{}`. -/
  jsonUnmarshalArr : String → Except String (List JsonVal)
  /-- `json.Unmarshal` into `map[string]interface{}` (keys are unique, so the
  list order never affects results). -/
  jsonUnmarshalObj : String → Except String (List (String × JsonVal))
  /-- The int64 conversion `int64(f)` applied to a decoded JSON number. -/
  floatToInt : Rat → Int
  /-- `match.MatchLimit s pattern 100` returning (matched, stopped). -/
  matchLimit : String → String → Bool × Bool

/-- A trivial instantiation of the externals, used by concrete witnesses. -/
def extDummy : Ext where
  parseCIDR := fun _ => none
  ipNetString := fun _ => ""
  ipString := fun _ => ""
  ipNetContains := fun _ _ => false
  ipIsLoopback := fun _ => false
  ipIsMulticast := fun _ => false
  parseFloat := fun _ => none
  formatFloat4 := fun _ => ""
  marshalString := fun s => goQuote s
  marshalStringList := fun _ => .ok ""
  jsonMarshal := fun _ => .ok ""
  jsonUnmarshalArr := fun _ => .error "ext"
  jsonUnmarshalObj := fun _ => .error "ext"
  floatToInt := fun _ => 0
  matchLimit := fun _ _ => (false, false)

/-- An entity attribute (entitystore.go `Attribute`; the evaluator revision
embedded here additionally reads `RecordValue` and `SetValue` pointers, whose
payloads are modelled as decoded JSON values). -/
structure Attribute where
  name : String
  stringValue : Option String := none
  longValue : Option Int := none
  booleanValue : Option Bool := none
  recordValue : Option JsonVal := none
  setValue : Option JsonVal := none

/-- An entity (entitystore.go `Entity`). -/
structure Entity where
  identifier : String
  parents : List String := []
  attributes : List Attribute := []

/-- utils.go `contains`. -/
def contains (s : List String) (str : String) : Bool := s.any (· == str)

/-- utils.go `containsEntity`. -/
def containsEntity (list : List Entity) (id : String) : Bool :=
  list.any (·.identifier == id)

/-- One pass of `GetEntityDescendents`' worklist body over all base entities
for the current worklist element `parent`: first every entity with a parent
edge equal to `parent` and an identifier not yet on the worklist is appended
to the worklist; then, if the entity's identifier equals `parent`, the Go
code executes `foundEntities[baseEntity.Identifier] = baseEntity` — but
`foundEntities` was declared `var foundEntities map[string]Entity` and never
allocated, so that assignment to a nil map panics at run time. -/
def gedScan (parent : String) : List Entity → List String → EvalRes (List String)
  | [], parents => .ok parents
  | be :: rest, parents =>
    let parents' :=
      be.parents.foldl
        (fun ps bp =>
          if bp == parent ∧ ¬ contains ps be.identifier then ps ++ [be.identifier] else ps)
        parents
    if be.identifier == parent then .panic
    else gedScan parent rest parents'

/-- The worklist loop of `GetEntityDescendents` (index `i` over the growing
`parents` list), driven by fuel; the worklist can grow only by entity
identifiers not already present, so `|initial| + |entities| + 1` fuel always
suffices, and exhaustion (unreachable) is reported as a panic. -/
def gedLoop (baseEntities : List Entity) : Nat → List String → Nat → EvalRes (List String)
  | 0, _, _ => .panic
  | fuel + 1, parents, i =>
    if h : i < parents.length then
      match gedScan (parents.get ⟨i, h⟩) baseEntities parents with
      | .ok parents' => gedLoop baseEntities fuel parents' (i + 1)
      | .fail e => .fail e
      | .panic => .panic
    else .ok parents

/-- entitystore.go `GetEntityDescendents` (lines 149-174).  Because the
`foundEntities` map is nil, the call panics as soon as any (transitively
reached) worklist identifier names an entity of the store; when no worklist
identifier is ever an entity of the store, it returns `maps.Values(nil)`,
the empty list. -/
def getEntityDescendents (baseEntities : List Entity) (parents : List String) :
    EvalRes (List Entity) :=
  match gedLoop baseEntities (parents.length + baseEntities.length + 1) parents 0 with
  | .ok _ => .ok []
  | .fail e => .fail e
  | .panic => .panic

/-- evaluator.go `getEntityAttributeSequenceItem` (part_002 lines 1931-2005):
the first attribute with the requested name on the first entity with the
requested identifier, projected by field priority; `.error` models the
function's non-nil error returns (the caller wraps them into ERROR items). -/
def getEntityAttributeSequenceItem (ext : Ext) (es : Option (List Entity))
    (entityName attributeName : String) : Except String SequenceItem :=
  match es with
  | none => .error "attribute access on invalid entity store"
  | some entities =>
    match entities.find? (·.identifier == entityName) with
    | none => .error "attribute not set"
    | some entity =>
      match entity.attributes.find? (·.name == attributeName) with
      | none => .error "attribute not set"
      | some att =>
        match att.stringValue with
        | some v => .ok ⟨.DBLQUOTESTR, ext.marshalString v, v⟩
        | none =>
        match att.longValue with
        | some v => .ok ⟨.LONG, formatInt v, formatInt v⟩
        | none =>
        match att.booleanValue with
        | some v =>
          if v then .ok ⟨.TRUE, "true", "true"⟩ else .ok ⟨.FALSE, "false", "false"⟩
        | none =>
        match att.recordValue with
        | some v =>
          match ext.jsonMarshal v with
          | .error e => .error e
          | .ok b => .ok ⟨.ATTRIBUTE, b, b⟩
        | none =>
        match att.setValue with
        | some v =>
          match ext.jsonMarshal v with
          | .error e => .error e
          | .ok b => .ok ⟨.SET, b, b⟩
        | none => .error "attribute not set"

/-- evaluator.go `getAttributeAttributeSequenceItem` (part_002 lines
2007-2089): JSON-decode the source blob and project the requested key.  A
JSON `null` value reaches the switch's default case, where
`reflect.TypeOf(attrVal).String()` dereferences a nil `reflect.Type` — a
run-time panic. -/
def getAttributeAttributeSequenceItem (ext : Ext)
    (sourceAttribute attributeName : String) : EvalRes SequenceItem :=
  match ext.jsonUnmarshalObj sourceAttribute with
  | .error e => .fail e
  | .ok obj =>
    match obj.find? (fun kv => kv.1 == attributeName) with
    | none => .fail "attribute not set"
    | some kv =>
      match kv.2 with
      | .num f =>
        let v := ext.floatToInt f
        .ok ⟨.LONG, formatInt v, formatInt v⟩
      | .str s => .ok ⟨.DBLQUOTESTR, ext.marshalString s, s⟩
      | .bool b =>
        if b then .ok ⟨.TRUE, "true", "true"⟩ else .ok ⟨.FALSE, "false", "false"⟩
      | .obj o =>
        match ext.jsonMarshal (.obj o) with
        | .error e => .fail e
        | .ok b => .ok ⟨.ATTRIBUTE, b, b⟩
      | .arr a =>
        match ext.jsonMarshal (.arr a) with
        | .error e => .fail e
        | .ok b => .ok ⟨.SET, b, b⟩
      | .null => .panic

/-- The token tags that `bubbleErrors` treats as carrying an error. -/
def errish (t : Token) : Bool :=
  t == .ERROR ∨ t == .THEN_TRUE_ELSE_ERROR ∨ t == .THEN_FALSE_ELSE_ERROR ∨
  t == .THEN_ERROR_ELSE_TRUE ∨ t == .THEN_ERROR_ELSE_FALSE

/-- evaluator.go `bubbleErrors` (part_002 lines 2092-2112): collect the
literals of error-carrying operands; `some` (with the `". "`-joined message)
signals that an ERROR item is pushed instead of running the operator. -/
def bubbleErrors (items : List SequenceItem) : Option String :=
  let found := (items.filter (fun i => errish i.token)).map (·.literal)
  if found.isEmpty then none else some (goJoinDotSpace found)

/-- An ERROR sequence item with the given message as literal and normalized
form (the shape every evaluator error path pushes). -/
def errItem (e : String) : SequenceItem := ⟨.ERROR, e, e⟩

def trueItem : SequenceItem := ⟨.TRUE, "true", "true"⟩

def falseItem : SequenceItem := ⟨.FALSE, "false", "false"⟩

def boolItem (b : Bool) : SequenceItem := if b then trueItem else falseItem

/-- evaluator.go `OP_PRECEDENCE` (part_002 lines 15-33); absent keys give
Go's map zero value 0. -/
def opPrecedence : Token → Nat
  | .AND => 2 | .OR => 2
  | .EQUALITY => 3 | .INEQUALITY => 3
  | .LT => 3 | .LTE => 3 | .GT => 3 | .GTE => 3
  | .IN => 3 | .LIKE => 3
  | .PLUS => 4 | .DASH => 4
  | .MULTIPLIER => 5 | .EXCLAMATION => 5
  | .PERIOD => 6
  | .FUNCTION => 7 | .RIGHT_SQB => 7
  | _ => 0

/-- evaluator.go `LEFT_ASSOCIATIVE` (part_002 lines 35-47): note that `OR`
is in the set ("to allow for custom short-circuiting logic") while `AND`,
`PLUS`, `MULTIPLIER`, `EQUALITY` and `INEQUALITY` are not. -/
def leftAssociative : Token → Bool
  | .OR => true
  | .LT => true | .LTE => true | .GT => true | .GTE => true
  | .IN => true | .LIKE => true
  | .DASH => true | .EXCLAMATION => true
  | .PERIOD => true | .FUNCTION => true
  | _ => false

def lparenItem : SequenceItem := ⟨.LEFT_PAREN, "(", "("⟩

def rparenItem : SequenceItem := ⟨.RIGHT_PAREN, ")", ")"⟩

/-- evaluator.go `wrapIfThenElse` (part_002 lines 283-309): the index-walk
with in-place splicing inserts `(` after `if`, `)(` around `then` and `)`
before `else`, then skips past the inserted tokens; it is exactly the
per-item expansion below. -/
def wrapIfThenElse (sequenceItemList : List SequenceItem) : List SequenceItem :=
  sequenceItemList.flatMap fun s =>
    if s.token = .IF then [s, lparenItem]
    else if s.token = .THEN then [rparenItem, s, lparenItem]
    else if s.token = .ELSE then [rparenItem, s]
    else [s]

/-- Pop operators until the matching left parenthesis (the RIGHT_PAREN case
of the shunting loop); returns (appended output, remaining stack). -/
def popUntilLParen : List SequenceItem → Option (List SequenceItem × List SequenceItem)
  | [] => none
  | pop :: rest =>
    if pop.token = .LEFT_PAREN then some ([], rest)
    else match popUntilLParen rest with
      | none => none
      | some (out, rest') => some (pop :: out, rest')

/-- The pop-while loop of the shunting-yard operator case (part_002 line
369): pop while the stack top has mapped precedence that is strictly higher
than the incoming operator's, or equal when the incoming operator is in the
left-associative set; returns (popped output, remaining stack). -/
def popWhileHigher (s : SequenceItem) : List SequenceItem → List SequenceItem × List SequenceItem
  | [] => ([], [])
  | top :: rest =>
    if opPrecedence top.token ≠ 0 ∧
        (opPrecedence top.token > opPrecedence s.token ∨
          (opPrecedence top.token = opPrecedence s.token ∧ leftAssociative s.token)) then
      let (out, rest') := popWhileHigher s rest
      (top :: out, rest')
    else ([], top :: rest)

/-- One step of the shunting-yard pass of `condEval` (part_002 lines
319-378), mapping the incoming item and the (outputQueue, operatorStack)
pair — stacks keep their top at the head — to the next pair. -/
def shuntStep (principal action resource context : String)
    (s : SequenceItem) (acc : List SequenceItem × List SequenceItem) :
    Except String (List SequenceItem × List SequenceItem) :=
  let (outputQueue, operatorStack) := acc
  match s.token with
  | .TRUE | .FALSE | .LONG | .DBLQUOTESTR | .ENTITY | .ATTRIBUTE =>
    .ok (outputQueue ++ [s], operatorStack)
  | .PRINCIPAL => .ok (outputQueue ++ [⟨.ENTITY, s.literal, principal⟩], operatorStack)
  | .ACTION => .ok (outputQueue ++ [⟨.ENTITY, s.literal, action⟩], operatorStack)
  | .RESOURCE => .ok (outputQueue ++ [⟨.ENTITY, s.literal, resource⟩], operatorStack)
  | .CONTEXT => .ok (outputQueue ++ [⟨.CONTEXT, s.literal, context⟩], operatorStack)
  | .LEFT_SQB => .ok (outputQueue ++ [s], operatorStack)
  | .LEFT_BRACE => .ok (outputQueue ++ [s], operatorStack)
  | .COMMA => .ok (outputQueue ++ [s], operatorStack)
  | .COLON =>
    -- Transcribed faithfully from `operatorStack = append(outputQueue, s)`:
    -- the operator stack is REPLACED by the output queue plus the colon.
    .ok (outputQueue, s :: outputQueue.reverse)
  | .RIGHT_SQB => .ok (outputQueue, s :: operatorStack)
  | .RIGHT_BRACE => .ok (outputQueue, s :: operatorStack)
  | .LEFT_PAREN => .ok (outputQueue, s :: operatorStack)
  | .FUNCTION => .ok (outputQueue, s :: operatorStack)
  | .RIGHT_PAREN =>
    match popUntilLParen operatorStack with
    | none => .error "mismatched parenthesis"
    | some (out, rest) => .ok (outputQueue ++ out, rest)
  | .EQUALITY | .INEQUALITY | .AND | .OR | .LT | .LTE | .GT | .GTE | .PLUS
  | .DASH | .MULTIPLIER | .IN | .HAS | .LIKE | .PERIOD | .EXCLAMATION
  | .IF | .THEN | .ELSE | .RECORDKEY =>
    let (out, rest) := popWhileHigher s operatorStack
    .ok (outputQueue ++ out, s :: rest)
  | _ => .error ("unknown token: (" ++ s.token.goV ++ ")")

/-- The drain after the shunting loop (part_002 lines 380-387): pop the
remaining operators to the output, failing on a leftover `(`. -/
def drainOperators : List SequenceItem → Except String (List SequenceItem)
  | [] => .ok []
  | pop :: rest =>
    if pop.token = .LEFT_PAREN then .error "mismatched parenthesis"
    else match drainOperators rest with
      | .error e => .error e
      | .ok out => .ok (pop :: out)

/-- The full shunting-yard pass: `wrapIfThenElse`, the per-token loop, and
the final drain, producing the RPN output queue. -/
def shunt (principal action resource context : String)
    (sequence : List SequenceItem) : Except String (List SequenceItem) :=
  let rec go (items : List SequenceItem) (acc : List SequenceItem × List SequenceItem) :
      Except String (List SequenceItem × List SequenceItem) :=
    match items with
    | [] => .ok acc
    | s :: rest =>
      match shuntStep principal action resource context s acc with
      | .error e => .error e
      | .ok acc' => go rest acc'
  match go (wrapIfThenElse sequence) ([], []) with
  | .error e => .error e
  | .ok (outputQueue, operatorStack) =>
    match drainOperators operatorStack with
    | .error e => .error e
    | .ok out => .ok (outputQueue ++ out)

/-- The Go comparison `someString == someInterfaceValue`: true iff the
dynamic type is `string` and the contents agree (used by `contains`). -/
def jsonIsString (s : String) : JsonVal → Bool
  | .str t => s == t
  | _ => false

/-- Go `==` on two `interface{}` values as produced by `json.Unmarshal`:
equal dynamic comparable types compare by value, different dynamic types
give false, and identical uncomparable dynamic types (slices, maps) panic
at run time. -/
def goIfaceEq : JsonVal → JsonVal → EvalRes Bool
  | .str a, .str b => .ok (a == b)
  | .num a, .num b => .ok (a == b)
  | .bool a, .bool b => .ok (a == b)
  | .null, .null => .ok true
  | .arr _, .arr _ => .panic
  | .obj _, .obj _ => .panic
  | _, _ => .ok false

/-- The inner search of `containsAll` / `containsAny`: is `x` Go-equal to
some element (propagating the uncomparable-type panic)? -/
def ifaceAnyEq (x : JsonVal) : List JsonVal → EvalRes Bool
  | [] => .ok false
  | y :: ys =>
    match goIfaceEq x y with
    | .panic => .panic
    | .fail e => .fail e
    | .ok true => .ok true
    | .ok false => ifaceAnyEq x ys

/-- The `containsAll` double loop (every element of `xs` appears in `ys`). -/
def containsAllLoop : List JsonVal → List JsonVal → EvalRes Bool
  | [], _ => .ok true
  | x :: xs, ys =>
    match ifaceAnyEq x ys with
    | .panic => .panic
    | .fail e => .fail e
    | .ok true => containsAllLoop xs ys
    | .ok false => .ok false

/-- The `containsAny` double loop (some element of `xs` appears in `ys`). -/
def containsAnyLoop : List JsonVal → List JsonVal → EvalRes Bool
  | [], _ => .ok false
  | x :: xs, ys =>
    match ifaceAnyEq x ys with
    | .panic => .panic
    | .fail e => .fail e
    | .ok true => .ok true
    | .ok false => containsAnyLoop xs ys

/-- The CIDR completion performed by `ip(...)` and by IP equality: a literal
without `/` gets `/128` when it has at least two colons, else `/32`. -/
def cidrNormalize (lit : String) : String :=
  if ¬ goContains lit "/" then
    if goCountChar lit ':' ≥ 2 then lit ++ "/128" else lit ++ "/32"
  else lit

/-- The IP-vs-IP test shared verbatim by the EQUALITY and INEQUALITY cases
(part_002 lines 1615-1685 and 1738-1808); `none` is the `net.ParseCIDR`
error path ("invalid ip").  In the Go code `firstIPInLhsCIDR` /
`firstIPInRhsCIDR` alias the byte slices that the subsequent `|=` loops
mutate in place, so when the comparison finally runs, both the "first" and
"last" variables hold the block's last address: both conjuncts compare the
last addresses. -/
def ipEqTest (ext : Ext) (a b : String) : Option Bool :=
  match ext.parseCIDR (cidrNormalize a) with
  | none => none
  | some lhsNet =>
    match ext.parseCIDR (cidrNormalize b) with
    | none => none
    | some rhsNet =>
      some (ext.ipString lhsNet.lastIP == ext.ipString rhsNet.lastIP ∧
            ext.ipString lhsNet.lastIP == ext.ipString rhsNet.lastIP)

/-- Go's `%q` rendering of a token value (a quoted rune); appears only
inside the "invalid period use" error literal, whose exact text no claim
depends on. -/
def goQTok (t : Token) : String :=
  "'\\x" ++ (Nat.toDigits 16 t.goIndex).asString ++ "'"

/-- The RIGHT_BRACE record-building loop of `condEval` (part_002 lines
1195-1258).  `record.RecordKeyValuePairs` is the nil map of the freshly
built `SequenceItem{Token: RECORD}`: reading it reports every key as absent,
and the assignment `record.RecordKeyValuePairs[...] = condEvalResult`
panics.  So whenever a string key with a pending value is processed, Go
first evaluates the value sub-expression recursively (`recEval`) and then
panics on the assignment; if the recursive evaluation itself panics, that
panic propagates — the outcome is a panic either way.  The loop otherwise
pops the stack, pushes ERROR items on the malformed-record paths, and
re-examines the just-popped key on `continue`; it makes net progress on the
stack every at most two iterations, so the fuel passed by `reduceStep`
(four times the stack length plus a constant) cannot run out; exhaustion is
mapped to a panic. -/
def recordLoop (recEval : List SequenceItem → EvalRes SequenceItem) :
    Nat → SequenceItem → List SequenceItem → List SequenceItem →
    EvalRes (List SequenceItem)
  | 0, _, _, _ => .panic
  | fuel + 1, rhs, vals, stack =>
    if rhs.token = .LEFT_BRACE then
      if vals.isEmpty then
        .ok (errItem "error whilst processing record" :: stack)
      else .ok (⟨.RECORD, "", ""⟩ :: stack)
    else if rhs.token = .COLON then
      match stack with
      | [] => .panic
      | key :: stack' =>
        if vals.isEmpty then
          recordLoop recEval fuel key vals
            (errItem "error whilst processing record, nothing found for value" :: stack')
        else if key.token = .DBLQUOTESTR ∨ key.token = .RECORDKEY then
          match recEval vals with
          | _ => .panic
        else
          recordLoop recEval fuel key vals
            (errItem "error whilst processing record, non-string key" :: stack')
    else
      match stack with
      | [] => .panic
      | next :: stack' => recordLoop recEval fuel next (vals ++ [rhs]) stack'

/-- The RIGHT_SQB set-building loop (part_002 lines 1259-1291): pop items
until the `[` marker, collecting them (top of stack first) together with
their normalized strings; popping past the bottom panics. -/
def setLoop : SequenceItem → List SequenceItem → List SequenceItem → List String →
    EvalRes (List SequenceItem × List String × List SequenceItem)
  | rhs, stack, rawSet, set =>
    if rhs.token = .LEFT_SQB then .ok (rawSet, set, stack)
    else
      match stack with
      | [] => .panic
      | next :: stack' => setLoop next stack' (rawSet ++ [rhs]) (set ++ [rhs.normalized])

/-- The method-call part of the PERIOD case (`rhs.Token == FUNCTION`,
part_002 lines 689-1186): `contains` first (for any receiver shape), then
the set, IP and decimal method families. -/
def periodFunction (ext : Ext)
    (lhs rhs : SequenceItem) (rest : List SequenceItem) : EvalRes (List SequenceItem) :=
  if rhs.normalized == "contains" then
    match rest with
    | [] => .panic
    | actualLhs :: rest2 =>
      match bubbleErrors [actualLhs] with
      | some e => .ok (errItem e :: rest2)
      | none =>
        if actualLhs.token ≠ .SET then
          .ok (errItem "unexpected use of contains function" :: rest2)
        else
          match ext.jsonUnmarshalArr actualLhs.normalized with
          | .error e => .ok (errItem e :: rest2)
          | .ok setVals => .ok (boolItem (setVals.any (jsonIsString lhs.normalized)) :: rest2)
  else if lhs.token = .SET then
    if rhs.normalized == "containsAll" then
      match rest with
      | [] => .panic
      | actualLhs :: rest2 =>
        match bubbleErrors [actualLhs] with
        | some e => .ok (errItem e :: rest2)
        | none =>
          if actualLhs.token ≠ .SET then
            .ok (errItem "unexpected use of containsAll function" :: rest2)
          else
            match ext.jsonUnmarshalArr actualLhs.normalized with
            | .error e => .ok (errItem e :: rest2)
            | .ok actualLhsSet =>
              match ext.jsonUnmarshalArr lhs.normalized with
              | .error e => .ok (errItem e :: rest2)
              | .ok actualRhsSet =>
                match containsAllLoop actualRhsSet actualLhsSet with
                | .panic => .panic
                | .fail e => .fail e
                | .ok b => .ok (boolItem b :: rest2)
    else if rhs.normalized == "containsAny" then
      match rest with
      | [] => .panic
      | actualLhs :: rest2 =>
        match bubbleErrors [actualLhs] with
        | some e => .ok (errItem e :: rest2)
        | none =>
          if actualLhs.token ≠ .SET then
            .ok (errItem "unexpected use of containsAny function" :: rest2)
          else
            match ext.jsonUnmarshalArr actualLhs.normalized with
            | .error e => .ok (errItem e :: rest2)
            | .ok actualLhsSet =>
              match ext.jsonUnmarshalArr lhs.normalized with
              | .error e => .ok (errItem e :: rest2)
              | .ok actualRhsSet =>
                match containsAnyLoop actualRhsSet actualLhsSet with
                | .panic => .panic
                | .fail e => .fail e
                | .ok b => .ok (boolItem b :: rest2)
    else .ok (errItem ("unknown function: " ++ rhs.literal) :: rest)
  else if lhs.token = .IP then
    if rhs.normalized == "isIpv4" then
      .ok (boolItem (goCountChar lhs.normalized ':' < 2) :: rest)
    else if rhs.normalized == "isIpv6" then
      .ok (boolItem (goCountChar lhs.normalized ':' ≥ 2) :: rest)
    else if rhs.normalized == "isInRange" then
      match rest with
      | [] => .panic
      | insideRange :: rest2 =>
        match bubbleErrors [insideRange] with
        | some e => .ok (errItem e :: rest2)
        | none =>
          match ext.parseCIDR lhs.normalized with
          | none => .ok (errItem "invalid IP" :: rest2)
          | some ipNet =>
            match ext.parseCIDR insideRange.normalized with
            | none => .ok (errItem "invalid IP" :: rest2)
            | some insideIpNet =>
              -- firstIPInCIDR aliases the slice mutated by the `|=` loop, so
              -- both Contains checks receive the block's last address
              let last := insideIpNet.lastIP
              .ok (boolItem (ext.ipNetContains ipNet last ∧ ext.ipNetContains ipNet last) :: rest2)
    else if rhs.normalized == "isLoopback" then
      match ext.parseCIDR lhs.normalized with
      | none => .ok (errItem "invalid IP" :: rest)
      | some ipNet =>
        let last := ipNet.lastIP
        .ok (boolItem (ext.ipIsLoopback last ∧ ext.ipIsLoopback last) :: rest)
    else if rhs.normalized == "isMulticast" then
      match ext.parseCIDR lhs.normalized with
      | none => .ok (errItem "invalid IP" :: rest)
      | some ipNet =>
        let last := ipNet.lastIP
        .ok (boolItem (ext.ipIsMulticast last ∧ ext.ipIsMulticast last) :: rest)
    else .ok (errItem ("unknown IP function: " ++ rhs.literal) :: rest)
  else if lhs.token = .DECIMAL then
    let decCompare (cmp : Rat → Rat → Bool) : EvalRes (List SequenceItem) :=
      match rest with
      | [] => .panic
      | actualLhs :: rest2 =>
        match bubbleErrors [actualLhs] with
        | some e => .ok (errItem e :: rest2)
        | none =>
          match ext.parseFloat actualLhs.normalized with
          | none => .ok (errItem "error parsing decimal" :: rest2)
          | some lhsD =>
            match ext.parseFloat lhs.normalized with
            | none => .ok (errItem "error parsing decimal" :: rest2)
            | some rhsD => .ok (boolItem (cmp lhsD rhsD) :: rest2)
    if rhs.normalized == "lessThan" then decCompare (· < ·)
    else if rhs.normalized == "lessThanOrEqual" then decCompare (· ≤ ·)
    else if rhs.normalized == "greaterThan" then decCompare (· > ·)
    else if rhs.normalized == "greaterThanOrEqual" then decCompare (· ≥ ·)
    else .ok (errItem ("unknown decimal function: " ++ rhs.literal) :: rest)
  else .ok (errItem ("unknown function: " ++ rhs.literal) :: rest)

/-- One step of the RPN reduction loop of `condEval` (part_002 lines
392-1917): the incoming RPN item `s` against the evaluation stack (top at
the head).  Pops of operands are unchecked in the Go code
(`evalStack[len(evalStack)-1]` and `...-2]`), so an underfull stack is an
index-out-of-range panic.  `recEval` evaluates a record-value sub-sequence
(the recursive `condEval` call of the RIGHT_BRACE case). -/
def reduceStep (ext : Ext) (es : Option (List Entity)) (sc : Bool)
    (recEval : List SequenceItem → EvalRes SequenceItem)
    (s : SequenceItem) (stack : List SequenceItem) : EvalRes (List SequenceItem) :=
  match s.token with
  | .COMMA => .ok stack
  | .TRUE | .FALSE | .LONG | .DBLQUOTESTR | .ENTITY | .ATTRIBUTE | .CONTEXT
  | .LEFT_SQB | .LEFT_BRACE | .COLON => .ok (s :: stack)
  | .EXCLAMATION =>
    match stack with
    | [] => .panic
    | rhs :: rest =>
      match bubbleErrors [rhs] with
      | some e => .ok (errItem e :: rest)
      | none =>
        if rhs.token = .TRUE then .ok (falseItem :: rest)
        else if rhs.token = .FALSE then .ok (trueItem :: rest)
        else .ok (errItem "attempted to negate non-boolean" :: rest)
  | .IF =>
    match stack with
    | thenElseResult :: ifResult :: rest =>
      if sc ∧ ((ifResult.token = .TRUE ∧ thenElseResult.token = .THEN_TRUE_ELSE_TRUE) ∨
          (ifResult.token = .TRUE ∧ thenElseResult.token = .THEN_TRUE_ELSE_FALSE) ∨
          (ifResult.token = .TRUE ∧ thenElseResult.token = .THEN_TRUE_ELSE_ERROR) ∨
          (ifResult.token = .FALSE ∧ thenElseResult.token = .THEN_FALSE_ELSE_TRUE) ∨
          (ifResult.token = .FALSE ∧ thenElseResult.token = .THEN_TRUE_ELSE_TRUE) ∨
          (ifResult.token = .FALSE ∧ thenElseResult.token = .THEN_ERROR_ELSE_TRUE)) then
        .ok (trueItem :: rest)
      else if sc ∧ ((ifResult.token = .TRUE ∧ thenElseResult.token = .THEN_FALSE_ELSE_FALSE) ∨
          (ifResult.token = .TRUE ∧ thenElseResult.token = .THEN_FALSE_ELSE_TRUE) ∨
          (ifResult.token = .TRUE ∧ thenElseResult.token = .THEN_FALSE_ELSE_ERROR) ∨
          (ifResult.token = .FALSE ∧ thenElseResult.token = .THEN_FALSE_ELSE_FALSE) ∨
          (ifResult.token = .FALSE ∧ thenElseResult.token = .THEN_TRUE_ELSE_FALSE) ∨
          (ifResult.token = .FALSE ∧ thenElseResult.token = .THEN_ERROR_ELSE_FALSE)) then
        .ok (falseItem :: rest)
      else
        match bubbleErrors [ifResult, thenElseResult] with
        | some e => .ok (errItem e :: rest)
        | none =>
          if (ifResult.token = .TRUE ∧ thenElseResult.token = .THEN_TRUE_ELSE_TRUE) ∨
              (ifResult.token = .TRUE ∧ thenElseResult.token = .THEN_TRUE_ELSE_FALSE) ∨
              (ifResult.token = .FALSE ∧ thenElseResult.token = .THEN_FALSE_ELSE_TRUE) ∨
              (ifResult.token = .FALSE ∧ thenElseResult.token = .THEN_TRUE_ELSE_TRUE) then
            .ok (trueItem :: rest)
          else if (ifResult.token = .TRUE ∧ thenElseResult.token = .THEN_FALSE_ELSE_FALSE) ∨
              (ifResult.token = .TRUE ∧ thenElseResult.token = .THEN_FALSE_ELSE_TRUE) ∨
              (ifResult.token = .FALSE ∧ thenElseResult.token = .THEN_FALSE_ELSE_FALSE) ∨
              (ifResult.token = .FALSE ∧ thenElseResult.token = .THEN_TRUE_ELSE_FALSE) then
            .ok (falseItem :: rest)
          else
            .fail ("invalid use of if-then-else block, got if " ++ ifResult.token.goV ++
              ", then-else " ++ thenElseResult.token.goV)
    | _ => .panic
  | .THEN =>
    match stack with
    | elseResult :: thenResult :: rest =>
      if thenResult.token = .TRUE ∧ elseResult.token = .ELSE_TRUE then
        .ok (⟨.THEN_TRUE_ELSE_TRUE, "THEN_TRUE_ELSE_TRUE", "THEN_TRUE_ELSE_TRUE"⟩ :: rest)
      else if thenResult.token = .TRUE ∧ elseResult.token = .ELSE_FALSE then
        .ok (⟨.THEN_TRUE_ELSE_FALSE, "THEN_TRUE_ELSE_FALSE", "THEN_TRUE_ELSE_FALSE"⟩ :: rest)
      else if thenResult.token = .TRUE ∧ elseResult.token = .ERROR then
        .ok (⟨.THEN_TRUE_ELSE_ERROR, elseResult.literal, elseResult.normalized⟩ :: rest)
      else if thenResult.token = .FALSE ∧ elseResult.token = .ELSE_TRUE then
        .ok (⟨.THEN_FALSE_ELSE_TRUE, "THEN_FALSE_ELSE_TRUE", "THEN_FALSE_ELSE_TRUE"⟩ :: rest)
      else if thenResult.token = .FALSE ∧ elseResult.token = .ELSE_FALSE then
        .ok (⟨.THEN_FALSE_ELSE_FALSE, "THEN_FALSE_ELSE_FALSE", "THEN_FALSE_ELSE_FALSE"⟩ :: rest)
      else if thenResult.token = .FALSE ∧ elseResult.token = .ERROR then
        .ok (⟨.THEN_FALSE_ELSE_ERROR, elseResult.literal, elseResult.normalized⟩ :: rest)
      else if thenResult.token = .ERROR ∧ elseResult.token = .ELSE_TRUE then
        .ok (⟨.THEN_ERROR_ELSE_TRUE, thenResult.literal, thenResult.normalized⟩ :: rest)
      else if thenResult.token = .ERROR ∧ elseResult.token = .ELSE_FALSE then
        .ok (⟨.THEN_ERROR_ELSE_FALSE, thenResult.literal, thenResult.normalized⟩ :: rest)
      else
        .ok (errItem ("invalid use of if-then-else block, got then " ++
          thenResult.token.goV ++ ", else " ++ elseResult.token.goV) :: rest)
    | _ => .panic
  | .ELSE =>
    match stack with
    | [] => .panic
    | elseResult :: rest =>
      match bubbleErrors [elseResult] with
      | some e => .ok (errItem e :: rest)
      | none =>
        if elseResult.token = .TRUE then
          .ok (⟨.ELSE_TRUE, "ELSE_TRUE", "ELSE_TRUE"⟩ :: rest)
        else if elseResult.token = .FALSE then
          .ok (⟨.ELSE_FALSE, "ELSE_FALSE", "ELSE_FALSE"⟩ :: rest)
        else
          .ok (errItem ("invalid use of if-then-else block, got else " ++
            elseResult.token.goV) :: rest)
  | .FUNCTION =>
    match stack with
    | [] => .panic
    | rhs :: rest =>
      let lit := rhs.normalized
      if s.normalized == "ip" then
        match bubbleErrors [rhs] with
        | some e => .ok (errItem e :: rest)
        | none =>
          match ext.parseCIDR (cidrNormalize lit) with
          | none => .ok (errItem "invalid ip" :: rest)
          | some ipNet => .ok (⟨.IP, lit, ext.ipNetString ipNet⟩ :: rest)
      else if s.normalized == "decimal" then
        match bubbleErrors [rhs] with
        | some e => .ok (errItem e :: rest)
        | none =>
          let precBad : Bool :=
            match goIndexOf lit '.' with
            | some i => decide (lit.data.length - i - 1 > 4)
            | none => false
          if precBad then .ok (errItem "too much precision in decimal" :: rest)
          else
            match ext.parseFloat lit with
            | none => .ok (errItem "error parsing decimal" :: rest)
            | some f => .ok (⟨.DECIMAL, lit, ext.formatFloat4 f⟩ :: rest)
      else .ok (s :: rhs :: rest)
  | .PERIOD =>
    match stack with
    | rhs :: lhs :: rest =>
      match bubbleErrors [lhs, rhs] with
      | some e => .ok (errItem e :: rest)
      | none =>
        if lhs.token = .CONTEXT ∧ rhs.token = .ATTRIBUTE then
          match getAttributeAttributeSequenceItem ext lhs.normalized rhs.normalized with
          | .panic => .panic
          | .fail e => .ok (errItem e :: rest)
          | .ok item => .ok (item :: rest)
        else if lhs.token = .ENTITY ∧ rhs.token = .ATTRIBUTE then
          match es with
          | none =>
            .ok (errItem ("invalid attribute access (no entities available): (" ++
              s.token.goV ++ ")") :: rest)
          | some _ =>
            match getEntityAttributeSequenceItem ext es lhs.normalized rhs.normalized with
            | .error e => .ok (errItem e :: rest)
            | .ok item => .ok (item :: rest)
        else if lhs.token = .ATTRIBUTE ∧ rhs.token = .ATTRIBUTE then
          match getAttributeAttributeSequenceItem ext lhs.normalized rhs.normalized with
          | .panic => .panic
          | .fail e => .ok (errItem e :: rest)
          | .ok item => .ok (item :: rest)
        else if rhs.token = .FUNCTION then
          periodFunction ext lhs rhs rest
        else
          .ok (errItem ("invalid period use, unknown function or attribute access: " ++
            goQTok lhs.token ++ " (" ++ lhs.token.goV ++ ")") :: rest)
    | _ => .panic
  | .RIGHT_BRACE =>
    match stack with
    | [] => .panic
    | rhs :: rest => recordLoop recEval (4 * stack.length + 16) rhs [] rest
  | .RIGHT_SQB =>
    match stack with
    | [] => .panic
    | rhs :: rest =>
      match setLoop rhs rest [] [] with
      | .panic => .panic
      | .fail e => .fail e
      | .ok (rawSet, set, remaining) =>
        match bubbleErrors rawSet with
        | some e => .ok (errItem e :: remaining)
        | none =>
          match ext.marshalStringList set with
          | .error _ => .ok (errItem "error whilst processing set" :: remaining)
          | .ok b => .ok (⟨.SET, b, b⟩ :: remaining)
  | .LIKE =>
    match stack with
    | rhs :: lhs :: rest =>
      match bubbleErrors [lhs, rhs] with
      | some e => .ok (errItem e :: rest)
      | none =>
        if lhs.token = .DBLQUOTESTR then
          if rhs.token = .DBLQUOTESTR then
            let (matched, stopped) := ext.matchLimit lhs.normalized rhs.normalized
            if stopped then .ok (errItem "string match too complex" :: rest)
            else .ok (boolItem matched :: rest)
          else .ok (falseItem :: rest)
        else .ok (errItem ("unknown token near like: (" ++ s.token.goV ++ ")") :: rest)
    | _ => .panic
  | .IN =>
    match stack with
    | rhs :: lhs :: rest =>
      match bubbleErrors [lhs, rhs] with
      | some e => .ok (errItem e :: rest)
      | none =>
        if lhs.token = .ENTITY then
          if rhs.token = .ENTITY then
            if lhs.normalized == rhs.normalized then .ok (trueItem :: rest)
            else
              match es with
              | none => .ok (falseItem :: rest)
              | some ents =>
                match getEntityDescendents ents [rhs.normalized] with
                | .panic => .panic
                | .fail e => .ok (errItem e :: rest)
                | .ok descendants =>
                  .ok (boolItem (containsEntity descendants lhs.normalized) :: rest)
          else .ok (falseItem :: rest)
        else .ok (errItem ("unknown token near in: (" ++ s.token.goV ++ ")") :: rest)
    | _ => .panic
  | .HAS =>
    match stack with
    | rhs :: lhs :: rest =>
      match bubbleErrors [lhs, rhs] with
      | some e => .ok (errItem e :: rest)
      | none =>
        if lhs.token = .ENTITY then
          if rhs.token = .ATTRIBUTE then
            match es with
            | none => .ok (falseItem :: rest)
            | some entities =>
              -- GetEntities' error branch concerns raw-store decoding, which
              -- the parsed-store model is past
              .ok (boolItem (entities.any fun ent =>
                ent.identifier == lhs.normalized ∧
                ent.attributes.any (·.name == rhs.normalized)) :: rest)
          else .ok (errItem ("unknown token near has: (" ++ s.token.goV ++ ")") :: rest)
        else .ok (errItem ("unknown token near has: (" ++ s.token.goV ++ ")") :: rest)
    | _ => .panic
  | .LT | .LTE | .GT | .GTE | .PLUS | .DASH | .MULTIPLIER =>
    match stack with
    | rhs :: lhs :: rest =>
      match bubbleErrors [lhs, rhs] with
      | some e => .ok (errItem e :: rest)
      | none =>
        if lhs.token = .LONG then
          if rhs.token = .LONG then
            match parseInt64 lhs.normalized with
            | none => .ok (errItem (parseIntErr lhs.normalized) :: rest)
            | some lhsL =>
              match parseInt64 rhs.normalized with
              | none => .ok (errItem (parseIntErr rhs.normalized) :: rest)
              | some rhsL =>
                if s.token = .LT then .ok (boolItem (lhsL < rhsL) :: rest)
                else if s.token = .LTE then .ok (boolItem (lhsL ≤ rhsL) :: rest)
                else if s.token = .GT then .ok (boolItem (lhsL > rhsL) :: rest)
                else if s.token = .GTE then .ok (boolItem (lhsL ≥ rhsL) :: rest)
                else if s.token = .PLUS then
                  let v := wrap64 (lhsL + rhsL)
                  .ok (⟨.LONG, formatInt v, formatInt v⟩ :: rest)
                else if s.token = .DASH then
                  let v := wrap64 (lhsL - rhsL)
                  .ok (⟨.LONG, formatInt v, formatInt v⟩ :: rest)
                else
                  let v := wrap64 (lhsL * rhsL)
                  .ok (⟨.LONG, formatInt v, formatInt v⟩ :: rest)
          else
            .ok (errItem ("unknown token near comparitor or math operator: (" ++
              s.token.goV ++ ")") :: rest)
        else
          .ok (errItem ("unknown token near comparitor or math operator: (" ++
            s.token.goV ++ ")") :: rest)
    | _ => .panic
  | .EQUALITY =>
    match stack with
    | rhs :: lhs :: rest =>
      match bubbleErrors [lhs, rhs] with
      | some e => .ok (errItem e :: rest)
      | none =>
        if lhs.token = .TRUE ∨ lhs.token = .FALSE then
          .ok (boolItem (rhs.token = lhs.token) :: rest)
        else if lhs.token = .IP then
          if rhs.token = .IP then
            match ipEqTest ext lhs.normalized rhs.normalized with
            | none => .ok (errItem "invalid ip" :: rest)
            | some b => .ok (boolItem b :: rest)
          else .ok (falseItem :: rest)
        else if lhs.token = rhs.token then
          .ok (boolItem (lhs.normalized == rhs.normalized) :: rest)
        else .ok (falseItem :: rest)
    | _ => .panic
  | .INEQUALITY =>
    match stack with
    | rhs :: lhs :: rest =>
      match bubbleErrors [lhs, rhs] with
      | some e => .ok (errItem e :: rest)
      | none =>
        if lhs.token = .TRUE ∨ lhs.token = .FALSE then
          .ok (boolItem (¬ rhs.token = lhs.token) :: rest)
        else if lhs.token = .IP then
          if rhs.token = .IP then
            match ipEqTest ext lhs.normalized rhs.normalized with
            | none => .ok (errItem "invalid ip" :: rest)
            | some b => .ok (boolItem (¬ b) :: rest)
          else .ok (trueItem :: rest)
        else if lhs.token = rhs.token then
          .ok (boolItem (¬ lhs.normalized == rhs.normalized) :: rest)
        else .ok (trueItem :: rest)
    | _ => .panic
  | .AND =>
    match stack with
    | rhs :: lhs :: rest =>
      if sc ∧ lhs.token = .FALSE then .ok (falseItem :: rest)
      else
        match bubbleErrors [lhs, rhs] with
        | some e => .ok (errItem e :: rest)
        | none =>
          if (lhs.token = .TRUE ∨ lhs.token = .FALSE) ∧
              (rhs.token = .TRUE ∨ rhs.token = .FALSE) then
            .ok (boolItem (lhs.token = .TRUE ∧ rhs.token = .TRUE) :: rest)
          else .ok (errItem ("unknown token near and: (" ++ s.token.goV ++ ")") :: rest)
    | _ => .panic
  | .OR =>
    match stack with
    | rhs :: lhs :: rest =>
      if sc ∧ lhs.token = .TRUE then .ok (trueItem :: rest)
      else
        match bubbleErrors [lhs, rhs] with
        | some e => .ok (errItem e :: rest)
        | none =>
          if (lhs.token = .TRUE ∨ lhs.token = .FALSE) ∧
              (rhs.token = .TRUE ∨ rhs.token = .FALSE) then
            .ok (boolItem (lhs.token = .TRUE ∨ rhs.token = .TRUE) :: rest)
          else .ok (errItem ("unknown token near or: (" ++ s.token.goV ++ ")") :: rest)
    | _ => .panic
  | _ => .fail ("unknown token: (" ++ s.token.goV ++ ")")

/-- The RPN reduction loop: fold `reduceStep` over the output queue. -/
def reduceAll (ext : Ext) (es : Option (List Entity)) (sc : Bool)
    (recEval : List SequenceItem → EvalRes SequenceItem) :
    List SequenceItem → List SequenceItem → EvalRes (List SequenceItem)
  | [], stack => .ok stack
  | s :: rest, stack =>
    match reduceStep ext es sc recEval s stack with
    | .panic => .panic
    | .fail e => .fail e
    | .ok stack' => reduceAll ext es sc recEval rest stack'

/-- A condition clause (parser.go `ConditionClause`): `WHEN` or `UNLESS`
plus the raw token sequence of the clause body. -/
structure ConditionClause where
  type : Token
  sequence : List SequenceItem
  deriving DecidableEq, Repr

/-- evaluator.go `condEval` (part_002 lines 311-1929), fuelled for the
record-value recursion of the RIGHT_BRACE case.  A RIGHT_BRACE token never
appears on the evaluation stack, so a record-value sub-sequence never
recurses further and recursion depth is at most one; `condEval` below runs
with fuel 3, which therefore never runs out (exhaustion is mapped to a
panic). -/
def condEvalFuel (ext : Ext) (es : Option (List Entity)) (sc : Bool) :
    Nat → ConditionClause → String → String → String → String → EvalRes SequenceItem
  | 0, _, _, _, _, _ => .panic
  | fuel + 1, cc, principal, action, resource, context =>
    match shunt principal action resource context cc.sequence with
    | .error e => .fail e
    | .ok outputQueue =>
      let recEval := fun vals =>
        condEvalFuel ext es sc fuel ⟨cc.type, vals⟩ principal action resource context
      match reduceAll ext es sc recEval outputQueue [] with
      | .panic => .panic
      | .fail e => .fail e
      | .ok evalStack =>
        match evalStack with
        | [final] =>
          if final.token = .ERROR then .fail final.literal else .ok final
        | _ => .fail "invalid stack state"

/-- evaluator.go `condEval` at its natural recursion budget. -/
def condEval (ext : Ext) (es : Option (List Entity)) (sc : Bool)
    (cc : ConditionClause) (principal action resource context : String) :
    EvalRes SequenceItem :=
  condEvalFuel ext es sc 3 cc principal action resource context

/-- parser.go `PolicyStatement`. -/
structure PolicyStatement where
  effect : Token
  anyPrincipal : Bool := false
  principal : String := ""
  principalParent : String := ""
  anyAction : Bool := false
  action : String := ""
  actionParents : List String := []
  anyResource : Bool := false
  resource : String := ""
  resourceParent : String := ""
  conditions : List ConditionClause := []
  deriving DecidableEq, Repr

/-- The action-namespace test of the decision procedure (part_002 lines
107 and 208): an action entity string is rejected when it neither contains
the substring `::Action::"` nor starts with `Action::"`. -/
def actionNsBad (a : String) : Bool :=
  ¬ (goContains a "::Action::\"" ∨ goStartsWith a "Action::\"")

/-- The principal-scope test that `Evaluate` performs inline in both passes
(part_002 lines 82-104 and 183-205): `ok true` falls through to the next
check, `ok false` is the `continue` (statement skipped), `.fail` is an error
return, and the final branch is the literal
`return false, fmt.Errorf("unknown policy state")`. -/
def principalCheck (es : Option (List Entity)) (stmt : PolicyStatement)
    (principal : String) : EvalRes Bool :=
  if stmt.anyPrincipal then .ok true
  else if stmt.principal ≠ "" then .ok (stmt.principal == principal)
  else if stmt.principalParent ≠ "" then
    if stmt.principalParent == principal then .ok true
    else
      match es with
      | none => .ok false
      | some ents =>
        match getEntityDescendents ents [stmt.principalParent] with
        | .panic => .panic
        | .fail e => .fail e
        | .ok descendants => .ok (containsEntity descendants principal)
  else .fail "unknown policy state"

/-- The action-scope test of both passes (part_002 lines 105-133 and
206-234).  For `action == E` the namespace test runs before the equality
comparison; for the `ActionParents` form a verbatim-listed action matches
without any namespace test, and otherwise (store present) every descendant
of the listed parents must pass the namespace test. -/
def actionCheck (es : Option (List Entity)) (stmt : PolicyStatement)
    (action : String) : EvalRes Bool :=
  if stmt.anyAction then .ok true
  else if stmt.action ≠ "" then
    if actionNsBad stmt.action then .fail "actions in scope must use Action:: namespace"
    else .ok (stmt.action == action)
  else -- assumed ActionParents populated
    if contains stmt.actionParents action then .ok true
    else
      match es with
      | none => .ok false
      | some ents =>
        match getEntityDescendents ents stmt.actionParents with
        | .panic => .panic
        | .fail e => .fail e
        | .ok descendants =>
          if descendants.any (fun v => actionNsBad v.identifier) then
            .fail "actions in scope must use Action:: namespace"
          else .ok (containsEntity descendants action)

/-- The resource-scope test of both passes (part_002 lines 134-156 and
235-257), mirroring `principalCheck`. -/
def resourceCheck (es : Option (List Entity)) (stmt : PolicyStatement)
    (resource : String) : EvalRes Bool :=
  if stmt.anyResource then .ok true
  else if stmt.resource ≠ "" then .ok (stmt.resource == resource)
  else if stmt.resourceParent ≠ "" then
    if stmt.resourceParent == resource then .ok true
    else
      match es with
      | none => .ok false
      | some ents =>
        match getEntityDescendents ents [stmt.resourceParent] with
        | .panic => .panic
        | .fail e => .fail e
        | .ok descendants => .ok (containsEntity descendants resource)
  else .fail "unknown policy state"

/-- The per-statement condition loop of both passes (part_002 lines 158-173
and 259-274): each clause in order; a non-boolean result is the error
"condition return is not boolean"; a false `when` or true `unless` skips the
statement (`ok false`); all clauses aligned is `ok true`. -/
def conditionsCheck (ext : Ext) (es : Option (List Entity)) (sc : Bool) :
    List ConditionClause → String → String → String → String → EvalRes Bool
  | [], _, _, _, _ => .ok true
  | cc :: rest, p, a, r, c =>
    match condEval ext es sc cc p a r c with
    | .panic => .panic
    | .fail e => .fail e
    | .ok res =>
      if res.token ≠ .TRUE ∧ res.token ≠ .FALSE then
        .fail "condition return is not boolean"
      else if cc.type = .WHEN ∧ res.token = .FALSE then .ok false
      else if cc.type = .UNLESS ∧ res.token = .TRUE then .ok false
      else conditionsCheck ext es sc rest p a r c

/-- The complete body that `Evaluate` runs for one statement of the pass's
effect: the three scope tests in order, then the condition clauses.
`ok true` means the pass returns at this statement. -/
def stmtMatches (ext : Ext) (es : Option (List Entity)) (sc : Bool)
    (stmt : PolicyStatement) (p a r c : String) : EvalRes Bool :=
  match principalCheck es stmt p with
  | .ok true =>
    match actionCheck es stmt a with
    | .ok true =>
      match resourceCheck es stmt r with
      | .ok true => conditionsCheck ext es sc stmt.conditions p a r c
      | other => other
    | other => other
  | other => other

/-- One pass of `Evaluate` (the ForbidLoop / PermitLoop shape): scan the
statements in source order, considering only those with effect `eff`;
`ok true` when the first fully-matching statement is found, `ok false` when
the loop falls through. -/
def passLoop (ext : Ext) (es : Option (List Entity)) (sc : Bool) (eff : Token) :
    List PolicyStatement → String → String → String → String → EvalRes Bool
  | [], _, _, _, _ => .ok false
  | stmt :: rest, p, a, r, c =>
    if stmt.effect = eff then
      match stmtMatches ext es sc stmt p a r c with
      | .ok true => .ok true
      | .ok false => passLoop ext es sc eff rest p a r c
      | .fail e => .fail e
      | .panic => .panic
    else passLoop ext es sc eff rest p a r c

/-- evaluator.go `Evaluate` (part_002 lines 72-281) on parsed statements:
the forbid pass over the whole list, then the permit pass, then the
implicit deny.  A `.fail` models Go's `return false, err` (the boolean
component of every error return is false). -/
def evaluate (ext : Ext) (es : Option (List Entity)) (sc : Bool)
    (stmts : List PolicyStatement) (p a r c : String) : EvalRes Bool :=
  match passLoop ext es sc .FORBID stmts p a r c with
  | .ok true => .ok false -- explicit forbid
  | .ok false =>
    match passLoop ext es sc .PERMIT stmts p a r c with
    | .ok true => .ok true -- explicit allow
    | .ok false => .ok false -- implicit deny
    | .fail e => .fail e
    | .panic => .panic
  | .fail e => .fail e
  | .panic => .panic

/-- `NewEvaluator` initializes `AllowShortCircuiting: true` (part_002 lines
57-62): the default value of the short-circuit flag. -/
def newEvaluatorAllowShortCircuiting : Bool := true

/-- Parser state (parser.go `Parser`): the not-yet-delivered scanner output
(token/literal pairs; the scanner returns `(EOF, "")` forever once the
stream ends), the one-token buffer of the last read token, and the `n` flag
that makes `scan` re-deliver the buffer after `unscan`. -/
structure ParserState where
  rest : List (Token × String)
  bufTok : Token := .EOF
  bufLit : String := ""
  bufN : Bool := false

/-- parser.go `scan` (lines 246-260). -/
def pscan (st : ParserState) : (Token × String) × ParserState :=
  if st.bufN then ((st.bufTok, st.bufLit), { st with bufN := false })
  else
    match st.rest with
    | [] => ((.EOF, ""), { st with bufTok := .EOF, bufLit := "", rest := [] })
    | t :: ts => (t, { rest := ts, bufTok := t.1, bufLit := t.2, bufN := false })

/-- parser.go `unscan` (line 439). -/
def punscan (st : ParserState) : ParserState := { st with bufN := true }

/-- The whitespace-and-comment skipping loop of `scanIgnoreWhitespace`
(lines 263-269), driven by fuel; each iteration consumes either the buffer
or one stream token, and the stream ends in an endless `EOF` supply, so the
fuel below never runs out. -/
def pscanIWLoop : Nat → ParserState → (Token × String) × ParserState
  | 0, st => ((.EOF, ""), st)
  | fuel + 1, st =>
    let ((tok, lit), st') := pscan st
    if tok = .WHITESPC ∨ tok = .COMMENT then pscanIWLoop fuel st'
    else ((tok, lit), st')

/-- parser.go `scanIgnoreWhitespace`. -/
def pscanIW (st : ParserState) : (Token × String) × ParserState :=
  pscanIWLoop (st.rest.length + 2) st

/-- The namespace-path loop shared by `scanEntity` (parser.go lines 374-388)
and `scanEntityOrFunction` (lines 415-429): alternate identifiers and `::`
separators until the double-quoted string.  On success the accumulated name
always contains at least one `::`, so it is never empty. -/
def scanEntityLoop : Nat → ParserState → String → Except String (String × ParserState)
  | 0, _, _ => .error "parser out of fuel"
  | fuel + 1, st, name =>
    let ((tok, lit), st1) := pscan st
    if tok = .IDENT then
      let ((tok2, lit2), st2) := pscan st1
      if tok2 ≠ .NAMESPACE then
        .error ("found " ++ goQuote lit2 ++ ", expected subnamespace separator")
      else scanEntityLoop fuel st2 (name ++ lit ++ "::")
    else if tok = .DBLQUOTESTR then .ok (name ++ lit, st1)
    else .error ("found " ++ goQuote lit ++ ", expected double quoted string or entity namespace")

/-- parser.go `scanEntity` (lines 362-391). -/
def scanEntity (st : ParserState) : Except String (String × ParserState) :=
  let ((tok, lit), st1) := pscanIW st
  if tok ≠ .IDENT then .error ("found " ++ goQuote lit ++ ", expected entity namespace")
  else
    let ((tok2, lit2), st2) := pscan st1
    if tok2 ≠ .NAMESPACE then .error ("found " ++ goQuote lit2 ++ ", expected namespace separator")
    else scanEntityLoop (st2.rest.length + 2) st2 (lit ++ "::")

/-- parser.go `scanEntityOrFunction` (lines 394-436): an identifier directly
followed by `(` is a function reference; otherwise a full entity path. -/
def scanEntityOrFunction (st : ParserState) : Except String (SequenceItem × ParserState) :=
  let ((tok, lit), st1) := pscanIW st
  if tok ≠ .IDENT then .error ("found " ++ goQuote lit ++ ", expected entity namespace")
  else
    let ((tok2, lit2), st2) := pscan st1
    if tok2 = .LEFT_PAREN then .ok (⟨.FUNCTION, lit, lit⟩, punscan st2)
    else if tok2 ≠ .NAMESPACE then
      .error ("found " ++ goQuote lit2 ++ ", expected namespace separator")
    else
      match scanEntityLoop (st2.rest.length + 2) st2 (lit ++ "::") with
      | .error e => .error e
      | .ok (name, st3) => .ok (⟨.ENTITY, name, name⟩, st3)

/-- The body loop of `scanConditionClause` (parser.go lines 281-356):
collect tokens between the braces, tracking the brace level, classifying
dotted identifiers as attribute or function references and normalizing
integer literals (the numeric case parser.go labels `INT`). -/
def scanCondLoop : Nat → ParserState → Token → String → Nat → List SequenceItem →
    Except String (List SequenceItem × ParserState)
  | 0, _, _, _, _, _ => .error "parser out of fuel"
  | fuel + 1, st, tok, lit, braceLevel, seq =>
    if tok = .RIGHT_BRACE ∧ braceLevel = 0 then .ok (seq, st)
    else
      match tok with
      | .LEFT_BRACE =>
        let ((tok', lit'), st') := pscanIW st
        scanCondLoop fuel st' tok' lit' (braceLevel + 1) (seq ++ [⟨.LEFT_BRACE, lit, lit⟩])
      | .RIGHT_BRACE =>
        let ((tok', lit'), st') := pscanIW st
        scanCondLoop fuel st' tok' lit' (braceLevel - 1) (seq ++ [⟨.RIGHT_BRACE, lit, lit⟩])
      | .IDENT =>
        match scanEntityOrFunction (punscan st) with
        | .error e => .error e
        | .ok (item, st1) =>
          let ((tok', lit'), st') := pscanIW st1
          scanCondLoop fuel st' tok' lit' braceLevel (seq ++ [item])
      | .PERIOD =>
        let ((tokA, litA), st1) := pscan st
        if tokA ≠ .IDENT then .error ("found " ++ goQuote litA ++ ", expected attribute or function")
        else
          let ((tokB, _), st2) := pscan st1
          let item : SequenceItem :=
            if tokB ≠ .LEFT_PAREN then ⟨.ATTRIBUTE, litA, litA⟩ else ⟨.FUNCTION, litA, litA⟩
          let st3 := punscan st2
          let ((tok', lit'), st') := pscanIW st3
          scanCondLoop fuel st' tok' lit' braceLevel (seq ++ [⟨.PERIOD, lit, lit⟩, item])
      | .LONG =>
        match parseInt64 lit with
        | none => .error "error parsing long"
        | some i =>
          let ((tok', lit'), st') := pscanIW st
          scanCondLoop fuel st' tok' lit' braceLevel (seq ++ [⟨.LONG, lit, formatInt i⟩])
      | .TRUE | .FALSE | .DBLQUOTESTR | .PRINCIPAL | .ACTION | .RESOURCE | .CONTEXT
      | .LEFT_SQB | .LEFT_PAREN | .RIGHT_SQB | .RIGHT_PAREN | .COMMA | .HAS | .LIKE
      | .EQUALITY | .INEQUALITY | .LT | .LTE | .GT | .GTE | .IN | .EXCLAMATION
      | .DASH | .PLUS | .MULTIPLIER | .AND | .OR | .IF | .THEN | .ELSE =>
        let ((tok', lit'), st') := pscanIW st
        scanCondLoop fuel st' tok' lit' braceLevel (seq ++ [⟨tok, lit, lit⟩])
      | _ =>
        .error ("unexpected token found in condition clause " ++ goQuote lit)

/-- parser.go `scanConditionClause` (lines 272-359). -/
def scanConditionClause (st : ParserState) (condType : Token) :
    Except String (ConditionClause × ParserState) :=
  let ((tok0, lit0), st0) := pscanIW st
  if tok0 ≠ .LEFT_BRACE then .error ("found " ++ goQuote lit0 ++ ", expected left brace")
  else
    let ((tok, lit), st1) := pscanIW st0
    match scanCondLoop (2 * st1.rest.length + 8) st1 tok lit 0 [] with
    | .error e => .error e
    | .ok (seq, st2) => .ok (⟨condType, seq⟩, st2)

/-- The `action in [ ... ]` list loop (parser.go lines 156-170); entered
with the artificial `tok = COMMA`, it demands an entity after every comma
until the closing bracket, so on success at least one entity was appended. -/
def scanActionList : Nat → ParserState → Token → String → List String →
    Except String (List String × ParserState)
  | 0, _, _, _, _ => .error "parser out of fuel"
  | fuel + 1, st, tok, lit, acc =>
    if tok = .RIGHT_SQB then .ok (acc, st)
    else if tok ≠ .COMMA then
      .error ("found " ++ goQuote lit ++ ", expected comma or right square bracket")
    else
      match scanEntity st with
      | .error e => .error e
      | .ok (entityName, st1) =>
        let ((tok', lit'), st2) := pscanIW st1
        scanActionList fuel st2 tok' lit' (acc ++ [entityName])

/-- The `(cond)*` loop of `Parse` (parser.go lines 219-230). -/
def condClausesLoop : Nat → ParserState → Token → String → List ConditionClause →
    Except String (List ConditionClause × Token × String × ParserState)
  | 0, _, _, _, _ => .error "parser out of fuel"
  | fuel + 1, st, tok, lit, acc =>
    if tok = .WHEN ∨ tok = .UNLESS then
      match scanConditionClause st tok with
      | .error e => .error e
      | .ok (cc, st1) =>
        let ((tok', lit'), st2) := pscanIW st1
        condClausesLoop fuel st2 tok' lit' (acc ++ [cc])
    else .ok (acc, tok, lit, st)

/-- The principal-scope switch of `Parse` (parser.go lines 93-122),
yielding the (AnyPrincipal, Principal, PrincipalParent) triple. -/
def parsePrincipalScope (st : ParserState) :
    Except String ((Bool × String × String) × ParserState) :=
  let ((tok, lit), st1) := pscanIW st
  match tok with
  | .COMMA => .ok ((true, "", ""), st1)
  | .EQUALITY =>
    match scanEntity st1 with
    | .error e => .error e
    | .ok (entityName, st2) =>
      let ((tok3, lit3), st3) := pscanIW st2
      if tok3 ≠ .COMMA then .error ("found " ++ goQuote lit3 ++ ", expected comma")
      else .ok ((false, entityName, ""), st3)
  | .IN =>
    match scanEntity st1 with
    | .error e => .error e
    | .ok (entityName, st2) =>
      let ((tok3, lit3), st3) := pscanIW st2
      if tok3 ≠ .COMMA then .error ("found " ++ goQuote lit3 ++ ", expected comma")
      else .ok ((false, "", entityName), st3)
  | _ => .error ("found " ++ goQuote lit ++ ", expected comma, equality operator, or in")

/-- The action-scope switch of `Parse` (parser.go lines 128-180), yielding
the (AnyAction, Action, ActionParents) triple. -/
def parseActionScope (st : ParserState) :
    Except String ((Bool × String × List String) × ParserState) :=
  let ((tok, lit), st1) := pscanIW st
  match tok with
  | .COMMA => .ok ((true, "", []), st1)
  | .EQUALITY =>
    match scanEntity st1 with
    | .error e => .error e
    | .ok (entityName, st2) =>
      let ((tok3, lit3), st3) := pscanIW st2
      if tok3 ≠ .COMMA then .error ("found " ++ goQuote lit3 ++ ", expected comma")
      else .ok ((false, entityName, []), st3)
  | .IN =>
    let ((tok2, lit2), st2) := pscanIW st1
    (if tok2 = .IDENT then
      match scanEntity (punscan st2) with
      | .error e => .error e
      | .ok (entityName, st3) => .ok ([entityName], st3)
    else if tok2 = .LEFT_SQB then
      scanActionList (st2.rest.length + 4) st2 .COMMA lit2 []
    else
      .error ("found " ++ goQuote lit2 ++ ", expected entity or left square bracket") :
      Except String (List String × ParserState)).bind fun (actionParents, st3) =>
    let ((tok4, lit4), st4) := pscanIW st3
    if tok4 ≠ .COMMA then .error ("found " ++ goQuote lit4 ++ ", expected comma")
    else .ok ((false, "", actionParents), st4)
  | _ => .error ("found " ++ goQuote lit ++ ", expected comma, equality operator, or in")

/-- The resource-scope switch of `Parse` (parser.go lines 186-215), yielding
the (AnyResource, Resource, ResourceParent) triple. -/
def parseResourceScope (st : ParserState) :
    Except String ((Bool × String × String) × ParserState) :=
  let ((tok, lit), st1) := pscanIW st
  match tok with
  | .RIGHT_PAREN => .ok ((true, "", ""), st1)
  | .EQUALITY =>
    match scanEntity st1 with
    | .error e => .error e
    | .ok (entityName, st2) =>
      let ((tok3, lit3), st3) := pscanIW st2
      if tok3 ≠ .RIGHT_PAREN then
        .error ("found " ++ goQuote lit3 ++ ", expected right parentheses")
      else .ok ((false, entityName, ""), st3)
  | .IN =>
    match scanEntity st1 with
    | .error e => .error e
    | .ok (entityName, st2) =>
      let ((tok3, lit3), st3) := pscanIW st2
      if tok3 ≠ .RIGHT_PAREN then
        .error ("found " ++ goQuote lit3 ++ ", expected right parentheses")
      else .ok ((false, "", entityName), st3)
  | _ => .error ("found " ++ goQuote lit ++
      ", expected right parentheses, equality operator, or in")

/-- The remainder of one statement-loop iteration of `Parse` (parser.go
lines 85-236) after the effect keyword: the parenthesized scopes, the
condition clauses and the terminating semicolon. -/
def parseStatementBody (effect : Token) (st : ParserState) :
    Except String (PolicyStatement × ParserState) :=
  let ((tok1, lit1), st1) := pscanIW st
  if tok1 ≠ .LEFT_PAREN then .error ("found " ++ goQuote lit1 ++ ", expected left parentheses")
  else
  let ((tok2, lit2), st2) := pscanIW st1
  if tok2 ≠ .PRINCIPAL then .error ("found " ++ goQuote lit2 ++ ", expected principal")
  else
  (parsePrincipalScope st2).bind fun ((anyPrincipal, principal, principalParent), stP) =>
  let ((tok6, lit6), st6) := pscanIW stP
  if tok6 ≠ .ACTION then .error ("found " ++ goQuote lit6 ++ ", expected action")
  else
  (parseActionScope st6).bind fun ((anyAction, action, actionParents), stA) =>
  let ((tok11, lit11), st11) := pscanIW stA
  if tok11 ≠ .RESOURCE then .error ("found " ++ goQuote lit11 ++ ", expected resource")
  else
  (parseResourceScope st11).bind fun ((anyResource, resource, resourceParent), stR) =>
  let ((tok15, lit15), st15) := pscanIW stR
  (condClausesLoop (2 * st15.rest.length + 8) st15 tok15 lit15 []).bind
  fun (conditions, tokS, litS, stS) =>
  if tokS ≠ .SEMICOLON then .error ("found " ++ goQuote litS ++ ", expected semicolon")
  else
    .ok ({ effect := effect,
           anyPrincipal := anyPrincipal, principal := principal,
           principalParent := principalParent,
           anyAction := anyAction, action := action, actionParents := actionParents,
           anyResource := anyResource, resource := resource,
           resourceParent := resourceParent,
           conditions := conditions }, stS)

/-- One iteration of the statement loop of `Parse` (parser.go lines 69-238):
the effect switch (`found %q, expected permit or forbid` otherwise), then
the scopes, condition clauses and semicolon. -/
def parseStatement (st : ParserState) (tok : Token) (lit : String) :
    Except String (PolicyStatement × ParserState) :=
  if tok = .PERMIT then parseStatementBody .PERMIT st
  else if tok = .FORBID then parseStatementBody .FORBID st
  else .error ("found " ++ goQuote lit ++ ", expected permit or forbid")

/-- The statement loop of `Parse` (`for tok != EOF`). -/
def parseLoop : Nat → ParserState → Token → String → List PolicyStatement →
    Except String (List PolicyStatement)
  | 0, _, _, _, _ => .error "parser out of fuel"
  | fuel + 1, st, tok, lit, acc =>
    if tok = .EOF then .ok acc
    else
      match parseStatement st tok lit with
      | .error e => .error e
      | .ok (stmt, st1) =>
        let ((tok', lit'), st2) := pscanIW st1
        parseLoop fuel st2 tok' lit' (acc ++ [stmt])

/-- parser.go `Parse` (lines 61-242) over the scanner's token/literal
stream: an immediate EOF is the error "no policy statements found". -/
def parse (toks : List (Token × String)) : Except String (List PolicyStatement) :=
  let st0 : ParserState := { rest := toks }
  let ((tok, lit), st1) := pscanIW st0
  if tok = .EOF then .error "no policy statements found"
  else parseLoop (2 * st1.rest.length + 8) st1 tok lit []

/-- evaluator.go `Evaluate` from the token stream: `e.p.Parse()` followed by
the two passes (parse errors are returned as `(false, err)`). -/
def evaluatePolicy (ext : Ext) (es : Option (List Entity)) (sc : Bool)
    (toks : List (Token × String)) (p a r c : String) : EvalRes Bool :=
  match parse toks with
  | .error e => .fail e
  | .ok stmts => evaluate ext es sc stmts p a r c

/-! Concrete inputs used by the theorems below. -/

/-- An entity-reference sequence item. -/
def entItem (n : String) : SequenceItem := ⟨.ENTITY, n, n⟩

/-- A record-value evaluator for `reduceStep` calls whose inputs contain no
RIGHT_BRACE token (it is never invoked on them). -/
def recNone : List SequenceItem → EvalRes SequenceItem := fun _ => .panic

/-- A two-entity store: `Principal::"MyPrincipal"` has the single parent
`Principal::"Parent"` (the store of the repository's own `in`-operator
tests). -/
def demoStore : List Entity :=
  [{ identifier := "Principal::\"MyPrincipal\"", parents := ["Principal::\"Parent\""] }]

/-- A one-entity store holding only `G::"g"`. -/
def gStore : List Entity := [{ identifier := "G::\"g\"" }]

/-- The condition clause `true || (1 < true)`: its right operand errors
(a LONG compared to a boolean). -/
def c2orClause : ConditionClause :=
  ⟨.WHEN, [⟨.TRUE, "true", "true"⟩, ⟨.OR, "||", "||"⟩, ⟨.LONG, "1", "1"⟩,
    ⟨.LT, "<", "<"⟩, ⟨.TRUE, "true", "true"⟩]⟩

/-- The condition clause `false && (1 < true)`. -/
def c2andClause : ConditionClause :=
  ⟨.WHEN, [⟨.FALSE, "false", "false"⟩, ⟨.AND, "&&", "&&"⟩, ⟨.LONG, "1", "1"⟩,
    ⟨.LT, "<", "<"⟩, ⟨.TRUE, "true", "true"⟩]⟩

/-- The error message of a comparison applied to a non-LONG operand. -/
def ltMismatchErr : String :=
  "unknown token near comparitor or math operator: (" ++ Token.goV .LT ++ ")"

/-- Scanner output of `permit ( principal , action in [ Foo::"x" ] , resource ) ;`
(whitespace tokens omitted; the parser discards them). -/
def c5toks : List (Token × String) :=
  [(.PERMIT, "permit"), (.LEFT_PAREN, "("), (.PRINCIPAL, "principal"), (.COMMA, ","),
   (.ACTION, "action"), (.IN, "in"), (.LEFT_SQB, "["), (.IDENT, "Foo"), (.NAMESPACE, "::"),
   (.DBLQUOTESTR, "\"x\""), (.RIGHT_SQB, "]"), (.COMMA, ","), (.RESOURCE, "resource"),
   (.RIGHT_PAREN, ")"), (.SEMICOLON, ";")]

/-- The statement `Parse` produces for `c5toks`: the action scope lists the
single entity `Foo::"x"`, whose final namespace component is `Foo`. -/
def c5stmt : PolicyStatement :=
  { effect := .PERMIT, anyPrincipal := true, anyAction := false,
    actionParents := ["Foo::\"x\""], anyResource := true }

/-- Scanner output of `permit ( principal , action , resource ) when { 1 < } ;`. -/
def c7toks : List (Token × String) :=
  [(.PERMIT, "permit"), (.LEFT_PAREN, "("), (.PRINCIPAL, "principal"), (.COMMA, ","),
   (.ACTION, "action"), (.COMMA, ","), (.RESOURCE, "resource"), (.RIGHT_PAREN, ")"),
   (.WHEN, "when"), (.LEFT_BRACE, "\x7b"), (.LONG, "1"), (.LT, "<"),
   (.RIGHT_BRACE, "\x7d"), (.SEMICOLON, ";")]

/-- The clause `{ 1 < }` as parsed into `c7stmt`. -/
def c7clause : ConditionClause := ⟨.WHEN, [⟨.LONG, "1", "1"⟩, ⟨.LT, "<", "<"⟩]⟩

/-- The statement `Parse` produces for `c7toks`. -/
def c7stmt : PolicyStatement :=
  { effect := .PERMIT, anyPrincipal := true, anyAction := true, anyResource := true,
    conditions := [c7clause] }

/-- Scanner output of
`permit ( principal , action , resource ) when { 2 + 3 * 4 + 5 == 19 } ;`. -/
def c9toks : List (Token × String) :=
  [(.PERMIT, "permit"), (.LEFT_PAREN, "("), (.PRINCIPAL, "principal"), (.COMMA, ","),
   (.ACTION, "action"), (.COMMA, ","), (.RESOURCE, "resource"), (.RIGHT_PAREN, ")"),
   (.WHEN, "when"), (.LEFT_BRACE, "\x7b"), (.LONG, "2"), (.PLUS, "+"), (.LONG, "3"),
   (.MULTIPLIER, "*"), (.LONG, "4"), (.PLUS, "+"), (.LONG, "5"), (.EQUALITY, "=="),
   (.LONG, "19"), (.RIGHT_BRACE, "\x7d"), (.SEMICOLON, ";")]

/-- The statement `Parse` produces for `c9toks`. -/
def c9stmt : PolicyStatement :=
  { effect := .PERMIT, anyPrincipal := true, anyAction := true, anyResource := true,
    conditions := [⟨.WHEN, [⟨.LONG, "2", "2"⟩, ⟨.PLUS, "+", "+"⟩, ⟨.LONG, "3", "3"⟩,
      ⟨.MULTIPLIER, "*", "*"⟩, ⟨.LONG, "4", "4"⟩, ⟨.PLUS, "+", "+"⟩, ⟨.LONG, "5", "5"⟩,
      ⟨.EQUALITY, "==", "=="⟩, ⟨.LONG, "19", "19"⟩]⟩] }

/-! The claims. -/

/-- **C4** (code_bug): `GetEntityDescendents` is claimed to terminate and
return exactly the matching entities (reflexively and transitively closed).
In fact its `foundEntities` accumulator is a nil map and the very first
matching identifier panics on assignment: already the minimal reflexive
query — the store holding only `G::"g"`, asked for the descendants of
`["G::"g""]` — panics instead of returning that entity, as does the
parent-chain query of the repository's own tests; a query whose identifiers
match no entity returns the empty list without panicking. -/
theorem c4_descendants_nil_map_panics :
    getEntityDescendents gStore ["G::\"g\""] = .panic ∧
    getEntityDescendents demoStore ["Principal::\"Parent\""] = .panic ∧
    getEntityDescendents demoStore ["Nobody::\"x\""] = .ok [] := by
  refine ⟨rfl, rfl, rfl⟩

/-- **C3** (code_bug): the condition-clause `in` operator.  The parts of the
claim not touching the store hold: equal entity references give true with no
store attached; a non-entity right operand gives false; a non-entity left
operand gives an error item; distinct entities with no store give false.
But in the remaining case — a store attached and the left entity an actual
descendant of the right — the claimed "true" is instead a run-time panic,
because `GetEntityDescendents` assigns into a nil map (the C4 bug). -/
theorem c3_in_operator :
    reduceStep extDummy none true recNone ⟨.IN, "in", "in"⟩
      [entItem "P::\"x\"", entItem "P::\"x\""] = .ok [trueItem] ∧
    reduceStep extDummy none true recNone ⟨.IN, "in", "in"⟩
      [⟨.LONG, "1", "1"⟩, entItem "P::\"x\""] = .ok [falseItem] ∧
    reduceStep extDummy none true recNone ⟨.IN, "in", "in"⟩
      [entItem "P::\"x\"", ⟨.LONG, "1", "1"⟩] =
      .ok [errItem ("unknown token near in: (" ++ Token.goV .IN ++ ")")] ∧
    reduceStep extDummy none true recNone ⟨.IN, "in", "in"⟩
      [entItem "P::\"y\"", entItem "P::\"x\""] = .ok [falseItem] ∧
    reduceStep extDummy (some demoStore) true recNone ⟨.IN, "in", "in"⟩
      [entItem "Principal::\"Parent\"", entItem "Principal::\"MyPrincipal\""] = .panic := by
  refine ⟨rfl, rfl, rfl, rfl, rfl⟩

/-- **C6** (counterexample): evaluating an empty policy source is claimed to
deny with no error; in fact `Parse` returns the error "no policy statements
found" at the concrete empty token stream, so `Evaluate` returns its
`(false, err)` error form rather than an error-free deny. -/
theorem c6_counterexample :
    evaluatePolicy extDummy none true [] "Principal::\"a\"" "Action::\"x\""
      "Resource::\"r\"" "" = .fail "no policy statements found" := rfl

/-- **C6** (amended): evaluating a policy source with no statements denies
(the boolean component is false) but with the error "no policy statements
found", for every request, store and flag value. -/
theorem c6_amended_empty_policy (ext : Ext) (es : Option (List Entity)) (sc : Bool)
    (p a r c : String) :
    evaluatePolicy ext es sc [] p a r c = .fail "no policy statements found" := rfl

/-- **C9**: the policy `permit(principal,action,resource) when { 2 + 3 * 4 + 5 == 19 };`
parses to `c9stmt` and grants every request: under `OP_PRECEDENCE`
multiplication (5) binds tighter than addition (4), which binds tighter than
equality (3), so the clause computes 2 + (3 * 4) + 5 == 19, which is true. -/
theorem c9_arithmetic_precedence_grants (ext : Ext) (es : Option (List Entity)) (sc : Bool)
    (p a r c : String) :
    parse c9toks = .ok [c9stmt] ∧
    evaluatePolicy ext es sc c9toks p a r c = .ok true := ⟨rfl, rfl⟩

/-- **C5** (counterexample): the claim demands the scope-namespace error for
every action-scope entity whose final namespace component is not `Action`,
including each listed entity of the `action in [ ... ]` form.  But for the
parsed policy `permit(principal, action in [Foo::"x"], resource);` and the
request action `Foo::"x"`, the decision procedure matches the verbatim-listed
entity before any namespace test and grants, with no error. -/
theorem c5_counterexample :
    parse c5toks = .ok [c5stmt] ∧
    evaluatePolicy extDummy none true c5toks "P::\"p\"" "Foo::\"x\"" "R::\"r\"" "" =
      .ok true := ⟨rfl, rfl⟩

/-- **C7** (counterexample): condition-clause evaluation is claimed total on
parser-accepted token sequences.  The policy
`permit(principal,action,resource) when { 1 < };` is accepted by `Parse`,
and evaluating its clause indexes the reduction stack below its bottom
(`evalStack[len(evalStack)-2]` with one element) — a run-time panic, not a
value or error return. -/
theorem c7_counterexample :
    parse c7toks = .ok [c7stmt] ∧
    condEval extDummy none true c7clause "p" "a" "r" "" = .panic ∧
    evaluatePolicy extDummy none true c7toks "p" "a" "r" "" = .panic := by
  refine ⟨rfl, rfl, rfl⟩

/-- **C2**: with short-circuiting on (the `NewEvaluator` default), an OR
whose left operand is true reduces to true and an AND whose left operand is
false reduces to false, whatever item the right operand evaluated to —
including an error item; with the flag off, the same reductions bubble the
right operand's error, and on the concrete clauses `true || (1 < true)` /
`false && (1 < true)` (whose right operand errors) `condEval` returns
true/false with the flag on and the operand's error with the flag off. -/
theorem c2_short_circuit_flag :
    newEvaluatorAllowShortCircuiting = true ∧
    (∀ (ext : Ext) (es : Option (List Entity)) (recEval : List SequenceItem → EvalRes SequenceItem)
      (x lhs : SequenceItem) (rest : List SequenceItem), lhs.token = .TRUE →
      reduceStep ext es true recEval ⟨.OR, "||", "||"⟩ (x :: lhs :: rest) =
        .ok (trueItem :: rest)) ∧
    (∀ (ext : Ext) (es : Option (List Entity)) (recEval : List SequenceItem → EvalRes SequenceItem)
      (x lhs : SequenceItem) (rest : List SequenceItem), lhs.token = .FALSE →
      reduceStep ext es true recEval ⟨.AND, "&&", "&&"⟩ (x :: lhs :: rest) =
        .ok (falseItem :: rest)) ∧
    (∀ (ext : Ext) (es : Option (List Entity)) (recEval : List SequenceItem → EvalRes SequenceItem)
      (lhs : SequenceItem) (rest : List SequenceItem) (e : String), lhs.token = .TRUE →
      reduceStep ext es false recEval ⟨.OR, "||", "||"⟩ (errItem e :: lhs :: rest) =
        .ok (errItem e :: rest)) ∧
    (∀ (ext : Ext) (es : Option (List Entity)) (recEval : List SequenceItem → EvalRes SequenceItem)
      (lhs : SequenceItem) (rest : List SequenceItem) (e : String), lhs.token = .FALSE →
      reduceStep ext es false recEval ⟨.AND, "&&", "&&"⟩ (errItem e :: lhs :: rest) =
        .ok (errItem e :: rest)) ∧
    (∀ (ext : Ext) (es : Option (List Entity)) (p a r c : String),
      condEval ext es true c2orClause p a r c = .ok trueItem ∧
      condEval ext es true c2andClause p a r c = .ok falseItem ∧
      condEval ext es false c2orClause p a r c = .fail ltMismatchErr ∧
      condEval ext es false c2andClause p a r c = .fail ltMismatchErr) := by
  refine ⟨rfl, ?_, ?_, ?_, ?_, ?_⟩
  · intro ext es recEval x lhs rest h
    simp [reduceStep, h]
  · intro ext es recEval x lhs rest h
    simp [reduceStep, h]
  · intro ext es recEval lhs rest e h
    simp [reduceStep, h, bubbleErrors, errish, errItem, goJoinDotSpace]
  · intro ext es recEval lhs rest e h
    simp [reduceStep, h, bubbleErrors, errish, errItem, goJoinDotSpace]
  · intro ext es p a r c
    exact ⟨rfl, rfl, rfl, rfl⟩

/-- **C5** (amended): for the `action == E` equality form the decision
procedure does error with "actions in scope must use Action:: namespace" at
decision time, regardless of the request — but the test it applies is the
string test `actionNsBad` (neither substring `::Action::"` nor prefix
`Action::"`), which agrees with "final namespace component is `Action`"
except when the quoted entity id itself contains `::Action::"`; and for the
`action in [E₁..Eₙ]` form the listed entities are never tested (only store
descendants are, when the request action is not listed verbatim). -/
theorem c5_amended_action_namespace (ext : Ext) (es : Option (List Entity)) (sc : Bool)
    (stmt : PolicyStatement) (p a r c : String)
    (heff : stmt.effect = .PERMIT ∨ stmt.effect = .FORBID)
    (hp : stmt.anyPrincipal = true) (ha : stmt.anyAction = false)
    (hne : stmt.action ≠ "") (hbad : actionNsBad stmt.action = true) :
    evaluate ext es sc [stmt] p a r c =
      .fail "actions in scope must use Action:: namespace" := by
  rcases heff with h | h <;>
    simp [evaluate, passLoop, stmtMatches, principalCheck, actionCheck, h, hp, ha, hne, hbad]

/-- **C7** (amended): condition-clause evaluation is not total (see the
counterexample: unchecked operand pops panic on operator-underflow
sequences the parser accepts), but the final-stack handling is as claimed:
whenever the shunting pass succeeds and the reduction loop completes with a
stack not holding exactly one value, `condEvalFuel` — of which `condEval`
is the fuel-3 instance — returns the error "invalid stack state"; and a
final value that is neither true nor false makes the decision procedure's
condition loop fail with "condition return is not boolean". -/
theorem c7_amended_stack_and_nonboolean :
    (∀ (ext : Ext) (es : Option (List Entity)) (sc : Bool) (n : Nat)
      (cc : ConditionClause) (p a r c : String)
      (out stack : List SequenceItem),
      shunt p a r c cc.sequence = .ok out →
      reduceAll ext es sc
        (fun vals => condEvalFuel ext es sc n ⟨cc.type, vals⟩ p a r c) out [] = .ok stack →
      stack.length ≠ 1 →
      condEvalFuel ext es sc (n + 1) cc p a r c = .fail "invalid stack state") ∧
    (∀ (ext : Ext) (es : Option (List Entity)) (sc : Bool) (cc : ConditionClause)
      (rest : List ConditionClause) (p a r c : String) (item : SequenceItem),
      condEval ext es sc cc p a r c = .ok item →
      item.token ≠ .TRUE → item.token ≠ .FALSE →
      conditionsCheck ext es sc (cc :: rest) p a r c =
        .fail "condition return is not boolean") := by
  constructor
  · intro ext es sc n cc p a r c out stack h1 h2 h3
    simp only [condEvalFuel, h1, h2]
    match stack, h3 with
    | [], _ => rfl
    | [x], h3 => exact absurd rfl h3
    | x :: y :: t, _ => rfl
  · intro ext es sc cc rest p a r c item h1 h2 h3
    simp [conditionsCheck, h1, h2, h3]

/-- Boolean negation on result items: flips TRUE/FALSE items and leaves
anything else (in particular ERROR items) unchanged. -/
def negItem (i : SequenceItem) : SequenceItem :=
  if i.token = .TRUE then falseItem else if i.token = .FALSE then trueItem else i

/-- `negItem` applied to the head of a successful reduction result. -/
def negStack : EvalRes (List SequenceItem) → EvalRes (List SequenceItem)
  | .ok (h :: t) => .ok (negItem h :: t)
  | r => r

/-- **C8**: the INEQUALITY reduction is the head-negation of the EQUALITY
reduction on every stack (same operands, same externals; identical error
items on the shared error paths, flipped booleans otherwise); in
particular, operands with different non-error type tags outside the
boolean and IP special cases give `==` false and `!=` true. -/
theorem c8_inequality_negates_equality :
    (∀ (ext : Ext) (es : Option (List Entity)) (sc : Bool)
      (recEval : List SequenceItem → EvalRes SequenceItem) (stack : List SequenceItem),
      reduceStep ext es sc recEval ⟨.INEQUALITY, "!=", "!="⟩ stack =
        negStack (reduceStep ext es sc recEval ⟨.EQUALITY, "==", "=="⟩ stack)) ∧
    (∀ (ext : Ext) (es : Option (List Entity)) (sc : Bool)
      (recEval : List SequenceItem → EvalRes SequenceItem)
      (a b : SequenceItem) (rest : List SequenceItem),
      a.token ≠ b.token → errish a.token = false → errish b.token = false →
      a.token ≠ .TRUE → a.token ≠ .FALSE → a.token ≠ .IP →
      reduceStep ext es sc recEval ⟨.EQUALITY, "==", "=="⟩ (b :: a :: rest) =
        .ok (falseItem :: rest) ∧
      reduceStep ext es sc recEval ⟨.INEQUALITY, "!=", "!="⟩ (b :: a :: rest) =
        .ok (trueItem :: rest)) := by
  constructor
  · intro ext es sc recEval stack
    match stack with
    | [] => rfl
    | [x] => rfl
    | b :: a :: rest =>
      simp only [reduceStep]
      cases hb : bubbleErrors [a, b] with
      | some e => simp [negStack, negItem, errItem]
      | none =>
        by_cases h1 : a.token = .TRUE ∨ a.token = .FALSE
        · simp only [h1, if_pos]
          by_cases h2 : b.token = a.token <;>
            simp [h2, boolItem, negStack, negItem, trueItem, falseItem]
        · simp only [h1, if_neg, not_false_eq_true]
          by_cases hIP : a.token = .IP
          · simp only [hIP, if_pos]
            by_cases hbIP : b.token = .IP
            · simp only [hbIP, if_pos]
              cases hip : ipEqTest ext a.normalized b.normalized with
              | none => simp [negStack, negItem, errItem]
              | some v => cases v <;> simp [boolItem, negStack, negItem, trueItem, falseItem]
            · simp [hbIP, negStack, negItem, trueItem, falseItem]
          · simp only [hIP, if_neg, not_false_eq_true]
            by_cases heq : a.token = b.token
            · by_cases hnorm : a.normalized == b.normalized <;>
                simp [heq, hnorm, boolItem, negStack, negItem, trueItem, falseItem]
            · simp [heq, negStack, negItem, trueItem, falseItem]
  · intro ext es sc recEval a b rest hne hea heb hT hF hIP
    have hb : bubbleErrors [a, b] = none := by
      simp [bubbleErrors, hea, heb]
    have h1 : ¬ (a.token = .TRUE ∨ a.token = .FALSE) := by
      rintro (h | h) <;> [exact hT h; exact hF h]
    constructor <;>
      simp [reduceStep, hb, h1, hIP, fun h => hne h, hne, boolItem]

/-- A pass over a concatenation runs the first part and, only when it falls
through, the second. -/
theorem passLoop_append (ext : Ext) (es : Option (List Entity)) (sc : Bool) (eff : Token)
    (xs ys : List PolicyStatement) (p a r c : String) :
    passLoop ext es sc eff (xs ++ ys) p a r c =
      match passLoop ext es sc eff xs p a r c with
      | .ok false => passLoop ext es sc eff ys p a r c
      | r => r := by
  induction xs with
  | nil => simp [passLoop]
  | cons s xs ih =>
    simp only [List.cons_append, passLoop]
    by_cases h : s.effect = eff
    · simp only [h, if_pos]
      rcases stmtMatches ext es sc s p a r c with b | e <;> try rfl
      cases b <;> simp [ih]
    · simp [h, ih]

/-- Statements whose effect is not the pass's effect are skipped: a pass
only sees the matching-effect sublist. -/
theorem passLoop_filter (ext : Ext) (es : Option (List Entity)) (sc : Bool) (eff : Token)
    (l : List PolicyStatement) (p a r c : String) :
    passLoop ext es sc eff l p a r c =
      passLoop ext es sc eff (l.filter (fun s => s.effect == eff)) p a r c := by
  induction l with
  | nil => rfl
  | cons s l ih =>
    by_cases h : s.effect = eff
    · have hb : (s.effect == eff) = true := by simp [h]
      simp only [List.filter_cons, hb, if_true]
      simp only [passLoop, h, if_pos]
      cases hm : stmtMatches ext es sc s p a r c with
      | ok b =>
        cases b with
        | false => simpa using ih
        | true => simp
      | fail e => simp
      | panic => simp
    · have hb : (s.effect == eff) = false := by simp [h]
      simp only [List.filter_cons, hb, Bool.false_eq_true, if_false]
      simp [passLoop, h, ih]

/-- A pass over statements none of which carry its effect falls through. -/
theorem passLoop_all_skip (ext : Ext) (es : Option (List Entity)) (sc : Bool) (eff : Token)
    (l : List PolicyStatement) (p a r c : String) (h : ∀ s ∈ l, s.effect ≠ eff) :
    passLoop ext es sc eff l p a r c = .ok false := by
  induction l with
  | nil => rfl
  | cons s l ih =>
    have hs : s.effect ≠ eff := h s (List.mem_cons_self s l)
    simp only [passLoop, hs, if_neg, if_false]
    exact ih (fun t ht => h t (List.mem_cons_of_mem s ht))

/-- When some statement of the pass's effect fully matches, the pass does
not fall through (it returns at that statement or aborts earlier). -/
theorem passLoop_found (ext : Ext) (es : Option (List Entity)) (sc : Bool) (eff : Token)
    (l : List PolicyStatement) (p a r c : String)
    (h : ∃ s ∈ l, s.effect = eff ∧ stmtMatches ext es sc s p a r c = .ok true) :
    passLoop ext es sc eff l p a r c ≠ .ok false := by
  induction l with
  | nil => rcases h with ⟨s, hs, _⟩; cases hs
  | cons s l ih =>
    rcases h with ⟨t, ht, hteff, htm⟩
    rcases List.mem_cons.mp ht with rfl | htl
    · simp only [passLoop, hteff, if_pos, htm]
      intro hcontra; cases hcontra
    · simp only [passLoop]
      by_cases hse : s.effect = eff
      · simp only [hse, if_pos]
        rcases hm : stmtMatches ext es sc s p a r c with b | e
        · cases b
          · exact ih ⟨t, htl, hteff, htm⟩
          · intro hcontra; cases hcontra
        · intro hcontra; cases hcontra
        · intro hcontra; cases hcontra
      · simp only [hse, if_neg, if_false]
        exact ih ⟨t, htl, hteff, htm⟩

/-- **C1**: when some forbid statement's scope matches the request and all
its condition clauses align (`stmtMatches` is `ok true`), `Evaluate` never
returns true — its boolean result, when it returns one, is false, whatever
permit statements are present; and `Evaluate` is unchanged by moving all
forbid statements in front of the rest (each pass only sees its own
effect's statements, forbids first), which is the order in which the two
labelled loops examine them. -/
theorem c1_forbid_overrides_permit :
    (∀ (ext : Ext) (es : Option (List Entity)) (sc : Bool)
      (stmts : List PolicyStatement) (p a r c : String),
      (∃ s ∈ stmts, s.effect = Token.FORBID ∧
        stmtMatches ext es sc s p a r c = .ok true) →
      evaluate ext es sc stmts p a r c ≠ .ok true) ∧
    (∀ (ext : Ext) (es : Option (List Entity)) (sc : Bool)
      (stmts : List PolicyStatement) (p a r c : String),
      evaluate ext es sc stmts p a r c =
        evaluate ext es sc
          (stmts.filter (fun s => s.effect == Token.FORBID) ++
            stmts.filter (fun s => s.effect != Token.FORBID)) p a r c) := by
  constructor
  · intro ext es sc stmts p a r c h
    have hf := passLoop_found ext es sc .FORBID stmts p a r c h
    simp only [evaluate]
    rcases hF : passLoop ext es sc .FORBID stmts p a r c with b | e
    · cases b
      · exact absurd hF hf
      · intro hcontra; cases hcontra
    · intro hcontra; cases hcontra
    · intro hcontra; cases hcontra
  · intro ext es sc stmts p a r c
    have hskipF : ∀ s ∈ stmts.filter (fun s => s.effect != Token.FORBID),
        s.effect ≠ Token.FORBID := by
      intro s hs
      have := List.of_mem_filter hs
      simpa using this
    have hFsplit : passLoop ext es sc .FORBID
        (stmts.filter (fun s => s.effect == Token.FORBID) ++
          stmts.filter (fun s => s.effect != Token.FORBID)) p a r c =
        passLoop ext es sc .FORBID stmts p a r c := by
      rw [passLoop_append]
      rw [passLoop_all_skip ext es sc .FORBID _ p a r c hskipF]
      rw [passLoop_filter ext es sc .FORBID stmts p a r c]
      rcases passLoop ext es sc .FORBID
        (stmts.filter (fun s => s.effect == Token.FORBID)) p a r c with b | e <;>
        first | (cases b <;> rfl) | rfl
    have hskipP : ∀ s ∈ stmts.filter (fun s => s.effect == Token.FORBID),
        s.effect ≠ Token.PERMIT := by
      intro s hs
      have := List.of_mem_filter hs
      have heq : s.effect = Token.FORBID := by simpa using this
      simp [heq]
    have hPsplit : passLoop ext es sc .PERMIT
        (stmts.filter (fun s => s.effect == Token.FORBID) ++
          stmts.filter (fun s => s.effect != Token.FORBID)) p a r c =
        passLoop ext es sc .PERMIT stmts p a r c := by
      rw [passLoop_append, passLoop_all_skip ext es sc .PERMIT _ p a r c hskipP]
      show passLoop ext es sc .PERMIT
          (stmts.filter (fun s => s.effect != Token.FORBID)) p a r c =
        passLoop ext es sc .PERMIT stmts p a r c
      rw [passLoop_filter ext es sc .PERMIT stmts p a r c,
        passLoop_filter ext es sc .PERMIT
          (stmts.filter (fun s => s.effect != Token.FORBID)) p a r c]
      congr 1
      rw [List.filter_filter]
      apply List.filter_congr
      intro s _
      by_cases h : s.effect = Token.PERMIT
      · simp [h]
      · simp [h]
    simp only [evaluate, hFsplit, hPsplit]

/-- The namespace-path loop only ever appends to the name it is given. -/
theorem scanEntityLoop_length (fuel : Nat) :
    ∀ (st : ParserState) (name n : String) (st' : ParserState),
    scanEntityLoop fuel st name = .ok (n, st') → name.length ≤ n.length := by
  induction fuel with
  | zero => intro st name n st' h; simp [scanEntityLoop] at h
  | succ fuel ih =>
    intro st name n st' h
    simp only [scanEntityLoop] at h
    rcases hps : pscan st with ⟨⟨tok, lit⟩, st1⟩
    rw [hps] at h
    dsimp only at h
    by_cases h1 : tok = .IDENT
    · rw [if_pos h1] at h
      rcases hps2 : pscan st1 with ⟨⟨tok2, lit2⟩, st2⟩
      rw [hps2] at h
      dsimp only at h
      by_cases h2 : tok2 ≠ .NAMESPACE
      · rw [if_pos h2] at h; simp at h
      · rw [if_neg h2] at h
        have := ih st2 (name ++ lit ++ "::") n st' h
        have hlen : (name ++ lit ++ "::").length = name.length + lit.length + 2 := by
          simp only [String.length_append]
          have : ("::" : String).length = 2 := rfl
          omega
        omega
    · rw [if_neg h1] at h
      by_cases h2 : tok = .DBLQUOTESTR
      · rw [if_pos h2] at h
        have hn : name ++ lit = n := by
          have := h
          simp only [Except.ok.injEq, Prod.mk.injEq] at this
          exact this.1
        have hlen : (name ++ lit).length = name.length + lit.length :=
          String.length_append name lit
        have hlen2 : n.length = name.length + lit.length := by rw [← hn]; exact hlen
        omega
      · rw [if_neg h2] at h; simp at h

/-- A successfully scanned entity name is never the empty string (it always
contains at least one `::`). -/
theorem scanEntity_ne_empty (st : ParserState) (n : String) (st' : ParserState)
    (h : scanEntity st = .ok (n, st')) : n ≠ "" := by
  unfold scanEntity at h
  rcases hps : pscanIW st with ⟨⟨tok, lit⟩, st1⟩
  rw [hps] at h
  dsimp only at h
  by_cases h1 : tok ≠ .IDENT
  · rw [if_pos h1] at h; simp at h
  · rw [if_neg h1] at h
    rcases hps2 : pscan st1 with ⟨⟨tok2, lit2⟩, st2⟩
    rw [hps2] at h
    dsimp only at h
    by_cases h2 : tok2 ≠ .NAMESPACE
    · rw [if_pos h2] at h; simp at h
    · rw [if_neg h2] at h
      have hle := scanEntityLoop_length (st2.rest.length + 2) st2 (lit ++ "::") n st' h
      have hlen : (lit ++ "::").length = lit.length + 2 := by
        simp only [String.length_append]
        have : ("::" : String).length = 2 := rfl
        omega
      intro hn
      rw [hn] at hle
      have hz : ("" : String).length = 0 := rfl
      omega

/-- The action list loop only ever appends entities. -/
theorem scanActionList_ne_nil (fuel : Nat) :
    ∀ (st : ParserState) (tok : Token) (lit : String) (acc res : List String)
      (st' : ParserState),
    scanActionList fuel st tok lit acc = .ok (res, st') → acc ≠ [] → res ≠ [] := by
  induction fuel with
  | zero => intro st tok lit acc res st' h hacc; simp [scanActionList] at h
  | succ fuel ih =>
    intro st tok lit acc res st' h hacc
    simp only [scanActionList] at h
    by_cases h1 : tok = .RIGHT_SQB
    · rw [if_pos h1] at h
      have : acc = res := by
        have := h
        simp only [Except.ok.injEq, Prod.mk.injEq] at this
        exact this.1
      rw [← this]; exact hacc
    · rw [if_neg h1] at h
      by_cases h2 : tok ≠ .COMMA
      · rw [if_pos h2] at h; simp at h
      · rw [if_neg h2] at h
        cases hse : scanEntity st with
        | error e => rw [hse] at h; simp at h
        | ok v =>
          rw [hse] at h
          obtain ⟨entityName, st1⟩ := v
          dsimp only at h
          rcases hps : pscanIW st1 with ⟨⟨tok', lit'⟩, st2⟩
          rw [hps] at h
          dsimp only at h
          exact ih st2 tok' lit' (acc ++ [entityName]) res st' h (by simp)

/-- Entered at its artificial leading comma with the empty accumulator, a
successful action list scan yields at least one entity. -/
theorem scanActionList_entry_ne_nil (fuel : Nat) (st : ParserState) (lit : String)
    (res : List String) (st' : ParserState)
    (h : scanActionList fuel st .COMMA lit [] = .ok (res, st')) : res ≠ [] := by
  cases fuel with
  | zero => simp [scanActionList] at h
  | succ fuel =>
    simp only [scanActionList] at h
    rw [if_neg (by decide : ¬ (Token.COMMA = Token.RIGHT_SQB))] at h
    rw [if_neg (by decide : ¬ (Token.COMMA ≠ Token.COMMA))] at h
    cases hse : scanEntity st with
    | error e => rw [hse] at h; simp at h
    | ok v =>
      rw [hse] at h
      obtain ⟨entityName, st1⟩ := v
      dsimp only at h
      rcases hps : pscanIW st1 with ⟨⟨tok', lit'⟩, st2⟩
      rw [hps] at h
      dsimp only at h
      exact scanActionList_ne_nil fuel st2 tok' lit' [entityName] res st' h (by simp)

/-- A parsed principal scope is `any` or names exactly one of a principal
and a principal parent (a nonempty entity string either way). -/
theorem parsePrincipalScope_inv (st : ParserState) (anyP : Bool) (pr pp : String)
    (st' : ParserState) (h : parsePrincipalScope st = .ok ((anyP, pr, pp), st')) :
    anyP = true ∨ (pr ≠ "" ∧ pp = "") ∨ (pr = "" ∧ pp ≠ "") := by
  unfold parsePrincipalScope at h
  rcases hps : pscanIW st with ⟨⟨tok, lit⟩, st1⟩
  rw [hps] at h
  dsimp only at h
  split at h
  · -- COMMA
    simp only [Except.ok.injEq, Prod.mk.injEq] at h
    exact Or.inl h.1.1.symm
  · -- EQUALITY
    cases hse : scanEntity st1 with
    | error e => rw [hse] at h; simp at h
    | ok v =>
      rw [hse] at h
      obtain ⟨entityName, st2⟩ := v
      dsimp only at h
      rcases hps3 : pscanIW st2 with ⟨⟨tok3, lit3⟩, st3⟩
      rw [hps3] at h
      dsimp only at h
      by_cases h3 : tok3 ≠ .COMMA
      · rw [if_pos h3] at h; simp at h
      · rw [if_neg h3] at h
        simp only [Except.ok.injEq, Prod.mk.injEq] at h
        refine Or.inr (Or.inl ⟨?_, h.1.2.2.symm⟩)
        rw [← h.1.2.1]
        exact scanEntity_ne_empty st1 entityName st2 hse
  · -- IN
    cases hse : scanEntity st1 with
    | error e => rw [hse] at h; simp at h
    | ok v =>
      rw [hse] at h
      obtain ⟨entityName, st2⟩ := v
      dsimp only at h
      rcases hps3 : pscanIW st2 with ⟨⟨tok3, lit3⟩, st3⟩
      rw [hps3] at h
      dsimp only at h
      by_cases h3 : tok3 ≠ .COMMA
      · rw [if_pos h3] at h; simp at h
      · rw [if_neg h3] at h
        simp only [Except.ok.injEq, Prod.mk.injEq] at h
        refine Or.inr (Or.inr ⟨h.1.2.1.symm, ?_⟩)
        rw [← h.1.2.2]
        exact scanEntity_ne_empty st1 entityName st2 hse
  · -- anything else is a parse error
    simp at h

/-- A parsed resource scope is `any` or names exactly one of a resource and
a resource parent (a nonempty entity string either way). -/
theorem parseResourceScope_inv (st : ParserState) (anyR : Bool) (r rp : String)
    (st' : ParserState) (h : parseResourceScope st = .ok ((anyR, r, rp), st')) :
    anyR = true ∨ (r ≠ "" ∧ rp = "") ∨ (r = "" ∧ rp ≠ "") := by
  unfold parseResourceScope at h
  rcases hps : pscanIW st with ⟨⟨tok, lit⟩, st1⟩
  rw [hps] at h
  dsimp only at h
  split at h
  · simp only [Except.ok.injEq, Prod.mk.injEq] at h
    exact Or.inl h.1.1.symm
  · cases hse : scanEntity st1 with
    | error e => rw [hse] at h; simp at h
    | ok v =>
      rw [hse] at h
      obtain ⟨entityName, st2⟩ := v
      dsimp only at h
      rcases hps3 : pscanIW st2 with ⟨⟨tok3, lit3⟩, st3⟩
      rw [hps3] at h
      dsimp only at h
      by_cases h3 : tok3 ≠ .RIGHT_PAREN
      · rw [if_pos h3] at h; simp at h
      · rw [if_neg h3] at h
        simp only [Except.ok.injEq, Prod.mk.injEq] at h
        refine Or.inr (Or.inl ⟨?_, h.1.2.2.symm⟩)
        rw [← h.1.2.1]
        exact scanEntity_ne_empty st1 entityName st2 hse
  · cases hse : scanEntity st1 with
    | error e => rw [hse] at h; simp at h
    | ok v =>
      rw [hse] at h
      obtain ⟨entityName, st2⟩ := v
      dsimp only at h
      rcases hps3 : pscanIW st2 with ⟨⟨tok3, lit3⟩, st3⟩
      rw [hps3] at h
      dsimp only at h
      by_cases h3 : tok3 ≠ .RIGHT_PAREN
      · rw [if_pos h3] at h; simp at h
      · rw [if_neg h3] at h
        simp only [Except.ok.injEq, Prod.mk.injEq] at h
        refine Or.inr (Or.inr ⟨h.1.2.1.symm, ?_⟩)
        rw [← h.1.2.2]
        exact scanEntity_ne_empty st1 entityName st2 hse
  · simp at h

/-- A parsed action scope is `any`, or names an action entity, or carries a
nonempty action-parent list. -/
theorem parseActionScope_inv (st : ParserState) (anyA : Bool) (act : String)
    (aps : List String) (st' : ParserState)
    (h : parseActionScope st = .ok ((anyA, act, aps), st')) :
    anyA = true ∨ act ≠ "" ∨ aps ≠ [] := by
  unfold parseActionScope at h
  rcases hps : pscanIW st with ⟨⟨tok, lit⟩, st1⟩
  rw [hps] at h
  dsimp only at h
  split at h
  · simp only [Except.ok.injEq, Prod.mk.injEq] at h
    exact Or.inl h.1.1.symm
  · -- EQUALITY
    cases hse : scanEntity st1 with
    | error e => rw [hse] at h; simp at h
    | ok v =>
      rw [hse] at h
      obtain ⟨entityName, st2⟩ := v
      dsimp only at h
      rcases hps3 : pscanIW st2 with ⟨⟨tok3, lit3⟩, st3⟩
      rw [hps3] at h
      dsimp only at h
      by_cases h3 : tok3 ≠ .COMMA
      · rw [if_pos h3] at h; simp at h
      · rw [if_neg h3] at h
        simp only [Except.ok.injEq, Prod.mk.injEq] at h
        refine Or.inr (Or.inl ?_)
        rw [← h.1.2.1]
        exact scanEntity_ne_empty st1 entityName st2 hse
  · -- IN
    rcases hps2 : pscanIW st1 with ⟨⟨tok2, lit2⟩, st2⟩
    rw [hps2] at h
    dsimp only at h
    by_cases h2 : tok2 = .IDENT
    · rw [if_pos h2] at h
      cases hse : scanEntity (punscan st2) with
      | error e => rw [hse] at h; simp [Except.bind] at h
      | ok v =>
        rw [hse] at h
        obtain ⟨entityName, st3⟩ := v
        simp only [Except.bind] at h
        rcases hps4 : pscanIW st3 with ⟨⟨tok4, lit4⟩, st4⟩
        rw [hps4] at h
        dsimp only at h
        by_cases h4 : tok4 ≠ .COMMA
        · rw [if_pos h4] at h; simp at h
        · rw [if_neg h4] at h
          simp only [Except.ok.injEq, Prod.mk.injEq] at h
          refine Or.inr (Or.inr ?_)
          rw [← h.1.2.2]
          simp
    · rw [if_neg h2] at h
      by_cases h2' : tok2 = .LEFT_SQB
      · rw [if_pos h2'] at h
        cases hal : scanActionList (st2.rest.length + 4) st2 .COMMA lit2 [] with
        | error e => rw [hal] at h; simp [Except.bind] at h
        | ok v =>
          rw [hal] at h
          obtain ⟨actionParents, st3⟩ := v
          simp only [Except.bind] at h
          rcases hps4 : pscanIW st3 with ⟨⟨tok4, lit4⟩, st4⟩
          rw [hps4] at h
          dsimp only at h
          by_cases h4 : tok4 ≠ .COMMA
          · rw [if_pos h4] at h; simp at h
          · rw [if_neg h4] at h
            simp only [Except.ok.injEq, Prod.mk.injEq] at h
            refine Or.inr (Or.inr ?_)
            rw [← h.1.2.2]
            exact scanActionList_entry_ne_nil _ st2 lit2 actionParents st3 hal
      · rw [if_neg h2'] at h; simp [Except.bind] at h
  · simp at h

/-- The scope invariant of parsed statements (claim C10): each of the
principal and resource slots is `any` or carries exactly one of its two
entity fields, and the action slot is `any` or carries an action entity or
a nonempty parent list. -/
def scopeInvariant (s : PolicyStatement) : Prop :=
  (s.anyPrincipal = true ∨ (s.principal ≠ "" ∧ s.principalParent = "") ∨
    (s.principal = "" ∧ s.principalParent ≠ "")) ∧
  (s.anyResource = true ∨ (s.resource ≠ "" ∧ s.resourceParent = "") ∨
    (s.resource = "" ∧ s.resourceParent ≠ "")) ∧
  (s.anyAction = true ∨ s.action ≠ "" ∨ s.actionParents ≠ [])

/-- Every statement `parseStatementBody` produces satisfies the scope
invariant. -/
theorem parseStatementBody_inv (effect : Token) (st : ParserState)
    (stmt : PolicyStatement) (st' : ParserState)
    (h : parseStatementBody effect st = .ok (stmt, st')) : scopeInvariant stmt := by
  unfold parseStatementBody at h
  rcases hp1 : pscanIW st with ⟨⟨tok1, lit1⟩, st1⟩
  rw [hp1] at h
  dsimp only at h
  by_cases hb1 : tok1 ≠ .LEFT_PAREN
  · rw [if_pos hb1] at h; simp at h
  · rw [if_neg hb1] at h
    rcases hp2 : pscanIW st1 with ⟨⟨tok2, lit2⟩, st2⟩
    rw [hp2] at h
    dsimp only at h
    by_cases hb2 : tok2 ≠ .PRINCIPAL
    · rw [if_pos hb2] at h; simp at h
    · rw [if_neg hb2] at h
      cases hP : parsePrincipalScope st2 with
      | error e => rw [hP] at h; simp [Except.bind] at h
      | ok vP =>
        rw [hP] at h
        obtain ⟨⟨anyP, pr, pp⟩, stP⟩ := vP
        simp only [Except.bind] at h
        rcases hp6 : pscanIW stP with ⟨⟨tok6, lit6⟩, st6⟩
        rw [hp6] at h
        dsimp only at h
        by_cases hb6 : tok6 ≠ .ACTION
        · rw [if_pos hb6] at h; simp at h
        · rw [if_neg hb6] at h
          cases hA : parseActionScope st6 with
          | error e => rw [hA] at h; simp [Except.bind] at h
          | ok vA =>
            rw [hA] at h
            obtain ⟨⟨anyA, act, aps⟩, stA⟩ := vA
            simp only [Except.bind] at h
            rcases hp11 : pscanIW stA with ⟨⟨tok11, lit11⟩, st11⟩
            rw [hp11] at h
            dsimp only at h
            by_cases hb11 : tok11 ≠ .RESOURCE
            · rw [if_pos hb11] at h; simp at h
            · rw [if_neg hb11] at h
              cases hR : parseResourceScope st11 with
              | error e => rw [hR] at h; simp [Except.bind] at h
              | ok vR =>
                rw [hR] at h
                obtain ⟨⟨anyR, rs, rp⟩, stR⟩ := vR
                simp only [Except.bind] at h
                rcases hp15 : pscanIW stR with ⟨⟨tok15, lit15⟩, st15⟩
                rw [hp15] at h
                dsimp only at h
                cases hC : condClausesLoop (2 * st15.rest.length + 8) st15 tok15 lit15 [] with
                | error e => rw [hC] at h; simp [Except.bind] at h
                | ok vC =>
                  rw [hC] at h
                  obtain ⟨conds, tokS, litS, stS⟩ := vC
                  simp only [Except.bind] at h
                  by_cases hbS : tokS ≠ .SEMICOLON
                  · rw [if_pos hbS] at h; simp at h
                  · rw [if_neg hbS] at h
                    simp only [Except.ok.injEq, Prod.mk.injEq] at h
                    obtain ⟨hstmt, hst'⟩ := h
                    subst hstmt
                    exact ⟨parsePrincipalScope_inv st2 anyP pr pp stP hP,
                      parseResourceScope_inv st11 anyR rs rp stR hR,
                      parseActionScope_inv st6 anyA act aps stA hA⟩

/-- Every statement `parseStatement` produces satisfies the scope
invariant. -/
theorem parseStatement_inv (st : ParserState) (tok : Token) (lit : String)
    (stmt : PolicyStatement) (st' : ParserState)
    (h : parseStatement st tok lit = .ok (stmt, st')) : scopeInvariant stmt := by
  unfold parseStatement at h
  by_cases h1 : tok = .PERMIT
  · rw [if_pos h1] at h
    exact parseStatementBody_inv .PERMIT st stmt st' h
  · rw [if_neg h1] at h
    by_cases h2 : tok = .FORBID
    · rw [if_pos h2] at h
      exact parseStatementBody_inv .FORBID st stmt st' h
    · rw [if_neg h2] at h; simp at h

/-- Every statement of a successful `parseLoop` run satisfies the scope
invariant, provided the accumulator's statements do. -/
theorem parseLoop_inv (fuel : Nat) :
    ∀ (st : ParserState) (tok : Token) (lit : String) (acc stmts : List PolicyStatement),
    (∀ s ∈ acc, scopeInvariant s) →
    parseLoop fuel st tok lit acc = .ok stmts →
    ∀ s ∈ stmts, scopeInvariant s := by
  induction fuel with
  | zero => intro st tok lit acc stmts hacc h; simp [parseLoop] at h
  | succ fuel ih =>
    intro st tok lit acc stmts hacc h
    simp only [parseLoop] at h
    by_cases h1 : tok = .EOF
    · rw [if_pos h1] at h
      have : acc = stmts := by
        have := h
        simp only [Except.ok.injEq] at this
        exact this
      rw [← this]; exact hacc
    · rw [if_neg h1] at h
      cases hps : parseStatement st tok lit with
      | error e => rw [hps] at h; simp at h
      | ok v =>
        rw [hps] at h
        obtain ⟨stmt, st1⟩ := v
        dsimp only at h
        rcases hp : pscanIW st1 with ⟨⟨tok', lit'⟩, st2⟩
        rw [hp] at h
        dsimp only at h
        refine ih st2 tok' lit' (acc ++ [stmt]) stmts ?_ h
        intro s hs
        rcases List.mem_append.mp hs with hs | hs
        · exact hacc s hs
        · rw [List.mem_singleton.mp hs]
          exact parseStatement_inv st tok lit stmt st1 hps

/-- `gedScan` only returns a worklist or panics; it never errors. -/
theorem gedScan_ne_fail (parent : String) :
    ∀ (bes : List Entity) (ps : List String) (e : String),
    gedScan parent bes ps ≠ .fail e := by
  intro bes
  induction bes with
  | nil => intro ps e h; simp [gedScan] at h
  | cons be rest ih =>
    intro ps e h
    simp only [gedScan] at h
    by_cases h1 : be.identifier == parent
    · rw [if_pos h1] at h; cases h
    · rw [if_neg h1] at h; exact ih _ e h

/-- The descendants worklist loop never errors. -/
theorem gedLoop_ne_fail (baseEntities : List Entity) (fuel : Nat) :
    ∀ (parents : List String) (i : Nat) (e : String),
    gedLoop baseEntities fuel parents i ≠ .fail e := by
  induction fuel with
  | zero => intro parents i e h; cases h
  | succ fuel ih =>
    intro parents i e h
    simp only [gedLoop] at h
    by_cases h1 : i < parents.length
    · rw [dif_pos h1] at h
      cases hg : gedScan (parents.get ⟨i, h1⟩) baseEntities parents with
      | ok parents' => rw [hg] at h; exact ih parents' (i + 1) e h
      | fail e' => exact gedScan_ne_fail _ baseEntities parents e' hg
      | panic => rw [hg] at h; cases h
    · rw [dif_neg h1] at h; cases h

/-- `GetEntityDescendents` never returns a Go error in the parsed-store
model: its outcomes are a list or a panic. -/
theorem getEntityDescendents_ne_fail (baseEntities : List Entity)
    (parents : List String) (e : String) :
    getEntityDescendents baseEntities parents ≠ .fail e := by
  intro h
  unfold getEntityDescendents at h
  cases hg : gedLoop baseEntities (parents.length + baseEntities.length + 1) parents 0 with
  | ok l => rw [hg] at h; cases h
  | fail e' => exact gedLoop_ne_fail baseEntities _ parents 0 e' hg
  | panic => rw [hg] at h; cases h

/-- **C10**: every statement list `parse` returns satisfies the scope
invariant, and on invariant-satisfying statements the two
`return false, fmt.Errorf("unknown policy state")` branches of `Evaluate`'s
scope checks are unreachable (the checks never produce that error). -/
theorem c10_parse_scope_invariant :
    (∀ (toks : List (Token × String)) (stmts : List PolicyStatement),
      parse toks = .ok stmts → ∀ s ∈ stmts, scopeInvariant s) ∧
    (∀ (es : Option (List Entity)) (s : PolicyStatement) (p r : String),
      scopeInvariant s →
      principalCheck es s p ≠ .fail "unknown policy state" ∧
      resourceCheck es s r ≠ .fail "unknown policy state") := by
  constructor
  · intro toks stmts h
    unfold parse at h
    dsimp only at h
    rcases hps : pscanIW { rest := toks } with ⟨⟨tok, lit⟩, st1⟩
    rw [hps] at h
    dsimp only at h
    by_cases h1 : tok = .EOF
    · rw [if_pos h1] at h; simp at h
    · rw [if_neg h1] at h
      exact parseLoop_inv _ st1 tok lit [] stmts (by simp) h
  · intro es s p r hinv
    constructor
    · rcases hinv.1 with hA | ⟨h1, h2⟩ | ⟨h1, h2⟩
      · simp [principalCheck, hA]
      · intro hcontra
        unfold principalCheck at hcontra
        split at hcontra
        · cases hcontra
        · cases hcontra
      · intro hcontra
        unfold principalCheck at hcontra
        split at hcontra
        · cases hcontra
        · split at hcontra
          · cases hcontra
          · split at hcontra
            · cases hcontra
            · cases es with
              | none => cases hcontra
              | some ents =>
                dsimp only at hcontra
                cases hg : getEntityDescendents ents [s.principalParent] with
                | ok d => rw [hg] at hcontra; cases hcontra
                | fail e => exact getEntityDescendents_ne_fail ents _ e hg
                | panic => rw [hg] at hcontra; cases hcontra
    · rcases hinv.2.1 with hA | ⟨h1, h2⟩ | ⟨h1, h2⟩
      · simp [resourceCheck, hA]
      · intro hcontra
        unfold resourceCheck at hcontra
        split at hcontra
        · cases hcontra
        · cases hcontra
      · intro hcontra
        unfold resourceCheck at hcontra
        split at hcontra
        · cases hcontra
        · split at hcontra
          · cases hcontra
          · split at hcontra
            · cases hcontra
            · cases es with
              | none => cases hcontra
              | some ents =>
                dsimp only at hcontra
                cases hg : getEntityDescendents ents [s.resourceParent] with
                | ok d => rw [hg] at hcontra; cases hcontra
                | fail e => exact getEntityDescendents_ne_fail ents _ e hg
                | panic => rw [hg] at hcontra; cases hcontra

/-- `forbid (principal, action, resource);` as parsed. -/
def forbidAllStmt : PolicyStatement :=
  { effect := .FORBID, anyPrincipal := true, anyAction := true, anyResource := true }

/-- `permit (principal, action, resource);` as parsed. -/
def permitAllStmt : PolicyStatement :=
  { effect := .PERMIT, anyPrincipal := true, anyAction := true, anyResource := true }

/-- Witness for C1: with a matching forbid ahead of a matching permit, the
decision is not true. -/
theorem c1_forbid_overrides_permit_witness :
    evaluate extDummy none true [forbidAllStmt, permitAllStmt]
      "P::\"a\"" "A::\"x\"" "R::\"r\"" "" ≠ .ok true :=
  c1_forbid_overrides_permit.1 extDummy none true [forbidAllStmt, permitAllStmt]
    "P::\"a\"" "A::\"x\"" "R::\"r\"" "" ⟨forbidAllStmt, by simp, rfl, rfl⟩

/-- Witness for C2 at concrete operands and clauses. -/
theorem c2_short_circuit_flag_witness :
    reduceStep extDummy none true recNone ⟨.OR, "||", "||"⟩
      [errItem "boom", trueItem] = .ok [trueItem] ∧
    reduceStep extDummy none true recNone ⟨.AND, "&&", "&&"⟩
      [errItem "boom", falseItem] = .ok [falseItem] ∧
    reduceStep extDummy none false recNone ⟨.OR, "||", "||"⟩
      [errItem "boom", trueItem] = .ok [errItem "boom"] ∧
    reduceStep extDummy none false recNone ⟨.AND, "&&", "&&"⟩
      [errItem "boom", falseItem] = .ok [errItem "boom"] ∧
    condEval extDummy none true c2orClause "p" "a" "r" "" = .ok trueItem :=
  ⟨c2_short_circuit_flag.2.1 extDummy none recNone (errItem "boom") trueItem [] rfl,
   c2_short_circuit_flag.2.2.1 extDummy none recNone (errItem "boom") falseItem [] rfl,
   c2_short_circuit_flag.2.2.2.1 extDummy none recNone trueItem [] "boom" rfl,
   c2_short_circuit_flag.2.2.2.2.1 extDummy none recNone falseItem [] "boom" rfl,
   (c2_short_circuit_flag.2.2.2.2.2 extDummy none "p" "a" "r" "").1⟩

/-- The statement `permit (principal, action == Foo::"y", resource);`. -/
def c5eqStmt : PolicyStatement :=
  { effect := .PERMIT, anyPrincipal := true, anyAction := false,
    action := "Foo::\"y\"", anyResource := true }

/-- Witness for the amended C5: an equality-form action scope whose entity
fails the namespace string test errors at decision time even when the
request action equals that entity. -/
theorem c5_amended_action_namespace_witness :
    evaluate extDummy none true [c5eqStmt] "P::\"p\"" "Foo::\"y\"" "R::\"r\"" "" =
      .fail "actions in scope must use Action:: namespace" :=
  c5_amended_action_namespace extDummy none true c5eqStmt
    "P::\"p\"" "Foo::\"y\"" "R::\"r\"" "" (Or.inl rfl) rfl rfl (by decide) (by decide)

/-- Witness for the amended C7: an empty clause leaves an empty stack (the
error "invalid stack state"), and a clause reducing to a bare LONG makes
the decision procedure fail with "condition return is not boolean". -/
theorem c7_amended_stack_and_nonboolean_witness :
    condEvalFuel extDummy none true 3 ⟨.WHEN, []⟩ "p" "a" "r" "" =
      .fail "invalid stack state" ∧
    conditionsCheck extDummy none true [⟨.WHEN, [⟨.LONG, "1", "1"⟩]⟩] "p" "a" "r" "" =
      .fail "condition return is not boolean" :=
  ⟨c7_amended_stack_and_nonboolean.1 extDummy none true 2 ⟨.WHEN, []⟩ "p" "a" "r" ""
      [] [] rfl rfl (by decide),
   c7_amended_stack_and_nonboolean.2 extDummy none true ⟨.WHEN, [⟨.LONG, "1", "1"⟩]⟩ []
      "p" "a" "r" "" ⟨.LONG, "1", "1"⟩ rfl (by decide) (by decide)⟩

/-- Witness for C8 at a LONG/string operand pair. -/
theorem c8_inequality_negates_equality_witness :
    reduceStep extDummy none true recNone ⟨.INEQUALITY, "!=", "!="⟩
      [⟨.DBLQUOTESTR, "\"s\"", "s"⟩, ⟨.LONG, "1", "1"⟩] =
      negStack (reduceStep extDummy none true recNone ⟨.EQUALITY, "==", "=="⟩
        [⟨.DBLQUOTESTR, "\"s\"", "s"⟩, ⟨.LONG, "1", "1"⟩]) ∧
    reduceStep extDummy none true recNone ⟨.EQUALITY, "==", "=="⟩
      [⟨.DBLQUOTESTR, "\"s\"", "s"⟩, ⟨.LONG, "1", "1"⟩] = .ok [falseItem] ∧
    reduceStep extDummy none true recNone ⟨.INEQUALITY, "!=", "!="⟩
      [⟨.DBLQUOTESTR, "\"s\"", "s"⟩, ⟨.LONG, "1", "1"⟩] = .ok [trueItem] :=
  ⟨c8_inequality_negates_equality.1 extDummy none true recNone
      [⟨.DBLQUOTESTR, "\"s\"", "s"⟩, ⟨.LONG, "1", "1"⟩],
   (c8_inequality_negates_equality.2 extDummy none true recNone
      ⟨.LONG, "1", "1"⟩ ⟨.DBLQUOTESTR, "\"s\"", "s"⟩ [] (by decide) rfl rfl
      (by decide) (by decide) (by decide)).1,
   (c8_inequality_negates_equality.2 extDummy none true recNone
      ⟨.LONG, "1", "1"⟩ ⟨.DBLQUOTESTR, "\"s\"", "s"⟩ [] (by decide) rfl rfl
      (by decide) (by decide) (by decide)).2⟩

/-- Witness for C10: the statement parsed from the C9 policy satisfies the
scope invariant, so its principal check cannot produce the unknown-state
error. -/
theorem c10_parse_scope_invariant_witness :
    scopeInvariant c9stmt ∧
    principalCheck none c9stmt "P::\"a\"" ≠ .fail "unknown policy state" :=
  have hinv := c10_parse_scope_invariant.1 c9toks [c9stmt] rfl c9stmt (by simp)
  ⟨hinv, (c10_parse_scope_invariant.2 none c9stmt "P::\"a\"" "R::\"r\"" hinv).1⟩

end Polai
